import Mathlib

/-!
Release deployability and admission control (kots).

A shallow embedding of the release identity comparator, the deployability
evaluator, the strict-preflight gate and the deployment committer.

* `pkg/store/kotsstore/downstream_store_test.go` holds the test tables of
  `isSameUpstreamRelease` and `isAppVersionDeployable`; the bodies of these two
  functions live in `downstream_store.go`, which is not part of the sources at
  hand, so both are modelled from the specification (§4.1, §4.2).
* `pkg/version/version.go` holds `DeployVersion`, `getStatus` and
  `isBlockedDueToStricPreFlights`, embedded over an explicit store state.
-/

namespace Kots

/-! ## Data model -/

/-- Semantic version as in `blang/semver`: `Major`, `Minor`, `Patch`, the
pre-release identifiers and the build metadata. -/
structure Semver where
  Major : Nat := 0
  Minor : Nat := 0
  Patch : Nat := 0
  Pre : List String := []
  Build : List String := []
  deriving DecidableEq, Repr

/-- One catalog entry, the fields of `downstreamtypes.DownstreamVersion` the
deployability rules read. -/
structure DownstreamVersion where
  Sequence : Int := 0
  ChannelID : String := ""
  Cursor : Int := 0
  VersionLabel : String := ""
  Semver : Option Semver := none
  IsRequired : Bool := false
  HasFailingStrictPreflights : Bool := false
  deriving DecidableEq, Repr

/-- Release history, `downstreamtypes.DownstreamVersions`: all versions (newest
first) and the currently deployed one, if any. -/
structure DownstreamVersions where
  AllVersions : List DownstreamVersion := []
  CurrentVersion : Option DownstreamVersion := none
  deriving DecidableEq, Repr

/-! ## Release identity comparator (§4.1) -/

/-- Modelled from the spec: the body of `isSameUpstreamRelease`
(`downstream_store.go`) is missing. Clause (a): same channel and same cursor;
clause (b): semver is authoritative and both semvers are present and equal. -/
def isSameUpstreamRelease (v1 v2 : DownstreamVersion) (isSemverRequired : Bool) : Bool :=
  (decide (v1.ChannelID = v2.ChannelID) && decide (v1.Cursor = v2.Cursor)) ||
  (isSemverRequired &&
    match v1.Semver, v2.Semver with
    | some s1, some s2 => decide (s1 = s2)
    | _, _ => false)

/-! ## Deployability evaluator (§4.2) -/

/-- Fixed cause of rule 1. -/
def strictPreflightCause : String :=
  "Deployment is disabled as a strict analyzer in this version's preflight checks has failed or has not been run."

/-- Rule 4, the blocking predicate: `v` lies strictly between target and current
by sequence, is required, and is the same upstream release as neither. -/
def isBlocking (version current : DownstreamVersion) (isSemverRequired : Bool)
    (v : DownstreamVersion) : Bool :=
  decide (min version.Sequence current.Sequence < v.Sequence) &&
  decide (v.Sequence < max version.Sequence current.Sequence) &&
  v.IsRequired &&
  !isSameUpstreamRelease v version isSemverRequired &&
  !isSameUpstreamRelease v current isSemverRequired

/-- Blocking releases of a history, sorted ascending by sequence (stable). -/
def blockingVersions (version current : DownstreamVersion) (isSemverRequired : Bool)
    (all : List DownstreamVersion) : List DownstreamVersion :=
  (all.filter (isBlocking version current isSemverRequired)).insertionSort
    (fun a b => a.Sequence ≤ b.Sequence)

/-- Deduplicate labels, keeping the first occurrence of each, order preserved. -/
def dedupLabels : List String → List String
  | [] => []
  | x :: xs => x :: (dedupLabels xs).filter (fun y => decide (y ≠ x))

/-- Labels of the blocking releases, ascending by sequence, deduplicated. -/
def blockingLabels (version current : DownstreamVersion) (isSemverRequired : Bool)
    (all : List DownstreamVersion) : List String :=
  dedupLabels ((blockingVersions version current isSemverRequired all).map (·.VersionLabel))

/-- Cause string for a non-empty list of blocking labels: singular for one label,
plural with the labels joined by `", "` otherwise. -/
def requiredCause (labels : List String) : String :=
  if labels.length = 1 then
    "This version cannot be deployed because version " ++ ", ".intercalate labels ++
      " is required and must be deployed first."
  else
    "This version cannot be deployed because versions " ++ ", ".intercalate labels ++
      " are required and must be deployed first."

/-- Modelled from the spec: the body of `isAppVersionDeployable`
(`downstream_store.go`) is missing. Rules 1-4 of §4.2 in order. The history is
a pointer in the test table (`appVersions`), absent in the first test case; the
spec gives an outcome for an absent history only under rule 1, so past rule 1
an absent history yields `none`. -/
def isAppVersionDeployable (version : DownstreamVersion)
    (appVersions : Option DownstreamVersions) (isSemverRequired : Bool) :
    Option (Bool × String) :=
  if version.HasFailingStrictPreflights then
    some (false, strictPreflightCause)
  else
    match appVersions with
    | none => none
    | some h =>
      match h.CurrentVersion with
      | none => some (true, "")
      | some current =>
        if version.Sequence = current.Sequence then some (true, "")
        else
          let labels := blockingLabels version current isSemverRequired h.AllVersions
          if labels.isEmpty then some (true, "")
          else some (false, requiredCause labels)

/-! ## Test tables of `downstream_store_test.go` -/

/-- One row of the table in `Test_isSameUpstreamRelease`. -/
structure SameUpstreamReleaseTest where
  v1 : DownstreamVersion
  v2 : DownstreamVersion
  isSemverRequired : Bool := false
  expected : Bool
  deriving DecidableEq, Repr

/-- The table of `Test_isSameUpstreamRelease`, in source order. -/
def sameUpstreamReleaseTests : List SameUpstreamReleaseTest := [
  -- line 20: non-semver, same channel, different cursor
  { v1 := { ChannelID := "channel-id-1", Cursor := 2, Semver := none },
    v2 := { ChannelID := "channel-id-1", Cursor := 3, Semver := none },
    isSemverRequired := false, expected := false },
  -- line 32: non-semver, same cursor, different channel
  { v1 := { ChannelID := "channel-id-1", Cursor := 2, Semver := none },
    v2 := { ChannelID := "channel-id-2", Cursor := 2, Semver := none },
    isSemverRequired := false, expected := false },
  -- line 44: non-semver, same cursor, same channel
  { v1 := { ChannelID := "channel-id-1", Cursor := 2, Semver := none },
    v2 := { ChannelID := "channel-id-1", Cursor := 2, Semver := none },
    isSemverRequired := false, expected := true },
  -- line 56: semver, same channel, same cursor, same semver
  { v1 := { ChannelID := "channel-id-1", Cursor := 2, Semver := some { Major := 3 } },
    v2 := { ChannelID := "channel-id-1", Cursor := 2, Semver := some { Major := 3 } },
    isSemverRequired := true, expected := true },
  -- line 75: semver, same channel, same cursor, different semver
  { v1 := { ChannelID := "channel-id-1", Cursor := 2, Semver := some { Major := 3 } },
    v2 := { ChannelID := "channel-id-1", Cursor := 2, Semver := some { Major := 4 } },
    isSemverRequired := true, expected := true },
  -- line 94: semver, different channel, same cursor, different semver
  { v1 := { ChannelID := "channel-id-1", Cursor := 2, Semver := some { Major := 3 } },
    v2 := { ChannelID := "channel-id-2", Cursor := 2, Semver := some { Major := 4 } },
    isSemverRequired := true, expected := false },
  -- line 113: semver, different channel, same cursor, same semver
  { v1 := { ChannelID := "channel-id-1", Cursor := 2, Semver := some { Major := 4 } },
    v2 := { ChannelID := "channel-id-2", Cursor := 2, Semver := some { Major := 4 } },
    isSemverRequired := true, expected := true },
  -- line 132: semver, same channel, different cursor, different semver
  { v1 := { ChannelID := "channel-id-1", Cursor := 2, Semver := some { Major := 3 } },
    v2 := { ChannelID := "channel-id-1", Cursor := 3, Semver := some { Major := 4 } },
    isSemverRequired := true, expected := false },
  -- line 151: semver, same channel, different cursor, same semver
  { v1 := { ChannelID := "channel-id-1", Cursor := 2, Semver := some { Major := 3 } },
    v2 := { ChannelID := "channel-id-1", Cursor := 3, Semver := some { Major := 3 } },
    isSemverRequired := true, expected := true },
  -- line 170: semver, different channel, different cursor, same semver
  { v1 := { ChannelID := "channel-id-1", Cursor := 2, Semver := some { Major := 4 } },
    v2 := { ChannelID := "channel-id-2", Cursor := 3, Semver := some { Major := 4 } },
    isSemverRequired := true, expected := true },
  -- line 189: semver, different channel, different cursor, different semver
  { v1 := { ChannelID := "channel-id-1", Cursor := 2, Semver := some { Major := 3 } },
    v2 := { ChannelID := "channel-id-2", Cursor := 3, Semver := some { Major := 4 } },
    isSemverRequired := true, expected := false },
  -- line 208: semver and non-semver, same channel, same cursor
  { v1 := { ChannelID := "channel-id-1", Cursor := 2, Semver := some { Major := 3 } },
    v2 := { ChannelID := "channel-id-1", Cursor := 2, Semver := none },
    isSemverRequired := true, expected := true },
  -- line 224: semver and non-semver, different channel, same cursor
  { v1 := { ChannelID := "channel-id-1", Cursor := 2, Semver := some { Major := 3 } },
    v2 := { ChannelID := "channel-id-2", Cursor := 2, Semver := none },
    isSemverRequired := true, expected := false },
  -- line 240: semver and non-semver, same channel, different cursor
  { v1 := { ChannelID := "channel-id-1", Cursor := 2, Semver := some { Major := 3 } },
    v2 := { ChannelID := "channel-id-1", Cursor := 3, Semver := none },
    isSemverRequired := true, expected := false }

]

/-- One row of the table in `Test_isAppVersionDeployable`; a missing
`appVersions` is the nil pointer. -/
structure AppVersionDeployableTest where
  version : DownstreamVersion
  appVersions : Option DownstreamVersions := none
  isSemverRequired : Bool := false
  expectedIsDeployable : Bool
  expectedCause : String
  deriving DecidableEq, Repr

/-- The table of `Test_isAppVersionDeployable`, in source order (zero-valued
fields are left out, as in the Go literals). -/
def appVersionDeployableTests : List AppVersionDeployableTest := [
  -- case 0, line 275: failing strict preflights
  { version := { HasFailingStrictPreflights := true },
    appVersions := none,
    isSemverRequired := false, expectedIsDeployable := false,
    expectedCause := "Deployment is disabled as a strict analyzer in this version's preflight checks has failed or has not been run." },
  -- case 1, line 283: no version is deployed yet
  { version := { },
    appVersions := some { AllVersions := [], CurrentVersion := none },
    isSemverRequired := false, expectedIsDeployable := true,
    expectedCause := "" },
  -- case 2, line 290: version is same as deployed version
  { version := { Sequence := 7 },
    appVersions := some {
      AllVersions := [],
      CurrentVersion := some { Sequence := 7 } },
    isSemverRequired := false, expectedIsDeployable := true,
    expectedCause := "" },
  -- case 3, line 304: non-semver -- deployed version is from a different channel, not required, no required releases in between
  { version := { Sequence := 1, ChannelID := "channel-id-1" },
    appVersions := some {
      AllVersions := [
        { Sequence := 1, ChannelID := "channel-id-1" },
        { ChannelID := "channel-id-2" }],
      CurrentVersion := some { ChannelID := "channel-id-2" } },
    isSemverRequired := false, expectedIsDeployable := true,
    expectedCause := "" },
  -- case 4, line 329: non-semver -- deployed version is from a different channel, is required, no required releases in between
  { version := { Sequence := 1, ChannelID := "channel-id-1" },
    appVersions := some {
      AllVersions := [
        { Sequence := 1, ChannelID := "channel-id-1" },
        { ChannelID := "channel-id-2", IsRequired := true }],
      CurrentVersion := some { ChannelID := "channel-id-2", IsRequired := true } },
    isSemverRequired := false, expectedIsDeployable := true,
    expectedCause := "" },
  -- case 5, line 356: non-semver -- deployed version is from a different channel, is required, required releases in between from different channel
  { version := { Sequence := 3, ChannelID := "channel-id-1" },
    appVersions := some {
      AllVersions := [
        { Sequence := 3, ChannelID := "channel-id-1" },
        { Sequence := 2, ChannelID := "channel-id-2", IsRequired := true },
        { Sequence := 1, ChannelID := "channel-id-2", IsRequired := true },
        { ChannelID := "channel-id-2", IsRequired := true }],
      CurrentVersion := some { ChannelID := "channel-id-2", IsRequired := true } },
    isSemverRequired := false, expectedIsDeployable := true,
    expectedCause := "" },
  -- case 6, line 393: non-semver -- deployed version is from a different channel, not required, required releases in between from same channel, same variants
  { version := { Sequence := 3, ChannelID := "channel-id-1", Cursor := 3, IsRequired := true },
    appVersions := some {
      AllVersions := [
        { Sequence := 3, ChannelID := "channel-id-1", Cursor := 3, IsRequired := true },
        { Sequence := 2, ChannelID := "channel-id-1", Cursor := 3, IsRequired := true },
        { Sequence := 1, ChannelID := "channel-id-1", Cursor := 3, IsRequired := true },
        { ChannelID := "channel-id-2", Cursor := 1 }],
      CurrentVersion := some { ChannelID := "channel-id-2", Cursor := 1 } },
    isSemverRequired := false, expectedIsDeployable := true,
    expectedCause := "" },
  -- case 7, line 436: non-semver -- deployed version is from a different channel, not required, required releases in between from same channel, different variants
  { version := { Sequence := 3, ChannelID := "channel-id-1", Cursor := 4, IsRequired := true },
    appVersions := some {
      AllVersions := [
        { Sequence := 3, ChannelID := "channel-id-1", Cursor := 4, IsRequired := true },
        { Sequence := 2, ChannelID := "channel-id-1", Cursor := 3, IsRequired := true },
        { Sequence := 1, ChannelID := "channel-id-1", Cursor := 2, IsRequired := true },
        { ChannelID := "channel-id-2", Cursor := 1 }],
      CurrentVersion := some { ChannelID := "channel-id-2", Cursor := 1 } },
    isSemverRequired := false, expectedIsDeployable := true,
    expectedCause := "" },
  -- case 8, line 479: non-semver -- deployed version is from same channel, not required, required releases in between from same channel, same variants as version
  { version := { Sequence := 3, ChannelID := "channel-id-1", Cursor := 2, IsRequired := true },
    appVersions := some {
      AllVersions := [
        { Sequence := 3, ChannelID := "channel-id-1", Cursor := 2, IsRequired := true },
        { Sequence := 2, ChannelID := "channel-id-1", Cursor := 2, IsRequired := true },
        { Sequence := 1, ChannelID := "channel-id-1", Cursor := 2, IsRequired := true },
        { ChannelID := "channel-id-1", Cursor := 1 }],
      CurrentVersion := some { ChannelID := "channel-id-1", Cursor := 1 } },
    isSemverRequired := false, expectedIsDeployable := true,
    expectedCause := "" },
  -- case 9, line 522: non-semver -- deployed version is from same channel, not required, required releases in between from same channel, same variants as deployed version
  { version := { Sequence := 3, ChannelID := "channel-id-1", Cursor := 2, IsRequired := true },
    appVersions := some {
      AllVersions := [
        { Sequence := 3, ChannelID := "channel-id-1", Cursor := 2, IsRequired := true },
        { Sequence := 2, ChannelID := "channel-id-1", Cursor := 1, IsRequired := true },
        { Sequence := 1, ChannelID := "channel-id-1", Cursor := 1, IsRequired := true },
        { ChannelID := "channel-id-1", Cursor := 1, IsRequired := true }],
      CurrentVersion := some { ChannelID := "channel-id-1", Cursor := 1, IsRequired := true } },
    isSemverRequired := false, expectedIsDeployable := true,
    expectedCause := "" },
  -- case 10, line 567: non-semver -- deployed version is from same channel, is required, required releases in between from same channel, different variants, lower cursor
  { version := { Sequence := 4, ChannelID := "channel-id-1", Cursor := 5, VersionLabel := "5.0" },
    appVersions := some {
      AllVersions := [
        { Sequence := 4, ChannelID := "channel-id-1", Cursor := 5, VersionLabel := "5.0" },
        { Sequence := 3, ChannelID := "channel-id-1", Cursor := 4, VersionLabel := "4.0", IsRequired := true },
        { Sequence := 2, ChannelID := "channel-id-1", Cursor := 3, VersionLabel := "3.0", IsRequired := true },
        { Sequence := 1, ChannelID := "channel-id-1", Cursor := 2, VersionLabel := "2.0", IsRequired := true },
        { ChannelID := "channel-id-1", Cursor := 1, VersionLabel := "1.0", IsRequired := true }],
      CurrentVersion := some { Sequence := 1, ChannelID := "channel-id-1", Cursor := 2, VersionLabel := "2.0", IsRequired := true } },
    isSemverRequired := false, expectedIsDeployable := false,
    expectedCause := "This version cannot be deployed because versions 3.0, 4.0 are required and must be deployed first." },
  -- case 11, line 623: non-semver -- deployed version is from same channel, is required, required releases in between from same channel, different variants, 2 higher cursor and 1 lower cursor from different channel
  { version := { Sequence := 5, ChannelID := "channel-id-1", Cursor := 2, VersionLabel := "2.0", IsRequired := true },
    appVersions := some {
      AllVersions := [
        { Sequence := 5, ChannelID := "channel-id-1", Cursor := 2, VersionLabel := "2.0", IsRequired := true },
        { Sequence := 4, ChannelID := "channel-id-1", Cursor := 4, VersionLabel := "4.0", IsRequired := true },
        { Sequence := 3, ChannelID := "channel-id-2", Cursor := 1, VersionLabel := "3.1", IsRequired := true },
        { Sequence := 2, ChannelID := "channel-id-1", Cursor := 3, VersionLabel := "3.0", IsRequired := true },
        { Sequence := 1, ChannelID := "channel-id-1", Cursor := 2, VersionLabel := "2.0", IsRequired := true },
        { ChannelID := "channel-id-1", Cursor := 1, VersionLabel := "1.0", IsRequired := true }],
      CurrentVersion := some { Sequence := 1, ChannelID := "channel-id-1", Cursor := 2, VersionLabel := "2.0", IsRequired := true } },
    isSemverRequired := false, expectedIsDeployable := true,
    expectedCause := "" },
  -- case 12, line 688: non-semver -- deployed version is from same channel, not required, required and non-required releases in between from same channel, different variants
  { version := { Sequence := 5, ChannelID := "channel-id-1", Cursor := 6, VersionLabel := "6.0" },
    appVersions := some {
      AllVersions := [
        { Sequence := 5, ChannelID := "channel-id-1", Cursor := 6, VersionLabel := "6.0" },
        { Sequence := 4, ChannelID := "channel-id-1", Cursor := 5, VersionLabel := "5.0", IsRequired := true },
        { Sequence := 3, ChannelID := "channel-id-1", Cursor := 4, VersionLabel := "4.0" },
        { Sequence := 2, ChannelID := "channel-id-1", Cursor := 3, VersionLabel := "3.0", IsRequired := true },
        { Sequence := 1, ChannelID := "channel-id-1", Cursor := 2, VersionLabel := "2.0" },
        { ChannelID := "channel-id-1", Cursor := 1, VersionLabel := "1.0", IsRequired := true }],
      CurrentVersion := some { Sequence := 1, ChannelID := "channel-id-1", Cursor := 2, VersionLabel := "2.0" } },
    isSemverRequired := false, expectedIsDeployable := false,
    expectedCause := "This version cannot be deployed because versions 3.0, 5.0 are required and must be deployed first." },
  -- case 13, line 748: non-semver -- deployed version is from same channel, not required, required releases in between from same channel and same variants
  { version := { Sequence := 5, ChannelID := "channel-id-1", Cursor := 6, VersionLabel := "4.0" },
    appVersions := some {
      AllVersions := [
        { Sequence := 5, ChannelID := "channel-id-1", Cursor := 6, VersionLabel := "4.0" },
        { Sequence := 4, ChannelID := "channel-id-1", Cursor := 3, VersionLabel := "3.0", IsRequired := true },
        { Sequence := 3, ChannelID := "channel-id-1", Cursor := 3, VersionLabel := "3.0", IsRequired := true },
        { Sequence := 2, ChannelID := "channel-id-1", Cursor := 3, VersionLabel := "3.0", IsRequired := true },
        { Sequence := 1, ChannelID := "channel-id-1", Cursor := 2, VersionLabel := "2.0" },
        { ChannelID := "channel-id-1", Cursor := 1, VersionLabel := "1.0", IsRequired := true }],
      CurrentVersion := some { Sequence := 1, ChannelID := "channel-id-1", Cursor := 2, VersionLabel := "2.0" } },
    isSemverRequired := false, expectedIsDeployable := false,
    expectedCause := "This version cannot be deployed because version 3.0 is required and must be deployed first." },
  -- case 14, line 812: semver -- deployed version is from a different channel, not required, no required releases in between
  { version := { Sequence := 1, ChannelID := "channel-id-1", Cursor := 1, VersionLabel := "2.0", Semver := some { Major := 2 } },
    appVersions := some {
      AllVersions := [
        { Sequence := 1, ChannelID := "channel-id-1", Cursor := 1, VersionLabel := "2.0", Semver := some { Major := 2 } },
        { ChannelID := "channel-id-2", Cursor := 1, VersionLabel := "1.0", Semver := some { Major := 1 } }],
      CurrentVersion := some { ChannelID := "channel-id-2", Cursor := 1, VersionLabel := "1.0", Semver := some { Major := 1 } } },
    isSemverRequired := true, expectedIsDeployable := true,
    expectedCause := "" },
  -- case 15, line 858: semver -- deployed version is from a different channel, is required, no required releases in between
  { version := { Sequence := 1, ChannelID := "channel-id-1", Cursor := 1, VersionLabel := "2.0", Semver := some { Major := 2 } },
    appVersions := some {
      AllVersions := [
        { Sequence := 1, ChannelID := "channel-id-1", Cursor := 1, VersionLabel := "2.0", Semver := some { Major := 2 } },
        { ChannelID := "channel-id-2", Cursor := 1, VersionLabel := "1.0", Semver := some { Major := 1 }, IsRequired := true }],
      CurrentVersion := some { ChannelID := "channel-id-2", Cursor := 1, VersionLabel := "1.0", Semver := some { Major := 1 }, IsRequired := true } },
    isSemverRequired := true, expectedIsDeployable := true,
    expectedCause := "" },
  -- case 16, line 906: semver -- deployed version is from a different channel, is required, required releases in between from different channel
  { version := { Sequence := 3, ChannelID := "channel-id-1", Cursor := 4, VersionLabel := "4.0", Semver := some { Major := 4 } },
    appVersions := some {
      AllVersions := [
        { Sequence := 3, ChannelID := "channel-id-1", Cursor := 4, VersionLabel := "4.0", Semver := some { Major := 4 } },
        { Sequence := 2, ChannelID := "channel-id-2", Cursor := 3, VersionLabel := "3.0", Semver := some { Major := 3 }, IsRequired := true },
        { Sequence := 1, ChannelID := "channel-id-2", Cursor := 2, VersionLabel := "2.0", Semver := some { Major := 2 }, IsRequired := true },
        { ChannelID := "channel-id-2", Cursor := 1, VersionLabel := "1.0", Semver := some { Major := 1 }, IsRequired := true }],
      CurrentVersion := some { ChannelID := "channel-id-2", Cursor := 1, VersionLabel := "1.0", Semver := some { Major := 1 }, IsRequired := true } },
    isSemverRequired := true, expectedIsDeployable := false,
    expectedCause := "This version cannot be deployed because versions 2.0, 3.0 are required and must be deployed first." },
  -- case 17, line 974: semver -- deployed version is from a different channel, not required, required releases in between from same channel, same variants
  { version := { Sequence := 3, ChannelID := "channel-id-1", Cursor := 2, VersionLabel := "2.0", Semver := some { Major := 2 }, IsRequired := true },
    appVersions := some {
      AllVersions := [
        { Sequence := 3, ChannelID := "channel-id-1", Cursor := 2, VersionLabel := "2.0", Semver := some { Major := 2 }, IsRequired := true },
        { Sequence := 2, ChannelID := "channel-id-1", Cursor := 2, VersionLabel := "2.0", Semver := some { Major := 2 }, IsRequired := true },
        { Sequence := 1, ChannelID := "channel-id-1", Cursor := 2, VersionLabel := "2.0", Semver := some { Major := 2 }, IsRequired := true },
        { ChannelID := "channel-id-2", Cursor := 1, VersionLabel := "1.0", Semver := some { Major := 1 } }],
      CurrentVersion := some { ChannelID := "channel-id-2", Cursor := 1, VersionLabel := "1.0", Semver := some { Major := 1 } } },
    isSemverRequired := true, expectedIsDeployable := true,
    expectedCause := "" },
  -- case 18, line 1042: semver -- deployed version is from a different channel, not required, required releases in between from same channel, different variants
  { version := { Sequence := 3, ChannelID := "channel-id-1", Cursor := 4, VersionLabel := "4.0", Semver := some { Major := 4 }, IsRequired := true },
    appVersions := some {
      AllVersions := [
        { Sequence := 3, ChannelID := "channel-id-1", Cursor := 4, VersionLabel := "4.0", Semver := some { Major := 4 }, IsRequired := true },
        { Sequence := 2, ChannelID := "channel-id-1", Cursor := 3, VersionLabel := "3.0", Semver := some { Major := 3 }, IsRequired := true },
        { Sequence := 1, ChannelID := "channel-id-1", Cursor := 2, VersionLabel := "2.0", Semver := some { Major := 2 }, IsRequired := true },
        { ChannelID := "channel-id-2", Cursor := 1, VersionLabel := "1.0", Semver := some { Major := 1 } }],
      CurrentVersion := some { ChannelID := "channel-id-2", Cursor := 1, VersionLabel := "1.0", Semver := some { Major := 1 } } },
    isSemverRequired := true, expectedIsDeployable := false,
    expectedCause := "This version cannot be deployed because versions 2.0, 3.0 are required and must be deployed first." },
  -- case 19, line 1110: semver -- deployed version is from same channel, not required, required releases in between from same channel, same variants as version
  { version := { Sequence := 3, ChannelID := "channel-id-1", Cursor := 2, VersionLabel := "2.0", Semver := some { Major := 2 }, IsRequired := true },
    appVersions := some {
      AllVersions := [
        { Sequence := 3, ChannelID := "channel-id-1", Cursor := 2, VersionLabel := "2.0", Semver := some { Major := 2 }, IsRequired := true },
        { Sequence := 2, ChannelID := "channel-id-1", Cursor := 2, VersionLabel := "2.0", Semver := some { Major := 2 }, IsRequired := true },
        { Sequence := 1, ChannelID := "channel-id-1", Cursor := 2, VersionLabel := "2.0", Semver := some { Major := 2 }, IsRequired := true },
        { ChannelID := "channel-id-1", Cursor := 1, VersionLabel := "1.0", Semver := some { Major := 1 } }],
      CurrentVersion := some { ChannelID := "channel-id-1", Cursor := 1, VersionLabel := "1.0", Semver := some { Major := 1 } } },
    isSemverRequired := true, expectedIsDeployable := true,
    expectedCause := "" },
  -- case 20, line 1178: semver -- deployed version is from same channel, not required, required releases in between from same channel, same variants as deployed version
  { version := { Sequence := 3, ChannelID := "channel-id-1", Cursor := 2, VersionLabel := "2.0", Semver := some { Major := 2 }, IsRequired := true },
    appVersions := some {
      AllVersions := [
        { Sequence := 3, ChannelID := "channel-id-1", Cursor := 2, VersionLabel := "2.0", Semver := some { Major := 2 }, IsRequired := true },
        { Sequence := 2, ChannelID := "channel-id-1", Cursor := 1, VersionLabel := "1.0", Semver := some { Major := 1 }, IsRequired := true },
        { Sequence := 1, ChannelID := "channel-id-1", Cursor := 1, VersionLabel := "1.0", Semver := some { Major := 1 }, IsRequired := true },
        { ChannelID := "channel-id-1", Cursor := 1, VersionLabel := "1.0", Semver := some { Major := 1 }, IsRequired := true }],
      CurrentVersion := some { ChannelID := "channel-id-1", Cursor := 1, VersionLabel := "1.0", Semver := some { Major := 1 }, IsRequired := true } },
    isSemverRequired := true, expectedIsDeployable := true,
    expectedCause := "" },
  -- case 21, line 1248: semver -- deployed version is from same channel, is required, required releases in between from same channel, different variants, lower cursor
  { version := { Sequence := 4, ChannelID := "channel-id-1", Cursor := 5, VersionLabel := "5.0", Semver := some { Major := 5 } },
    appVersions := some {
      AllVersions := [
        { Sequence := 4, ChannelID := "channel-id-1", Cursor := 5, VersionLabel := "5.0", Semver := some { Major := 5 } },
        { Sequence := 3, ChannelID := "channel-id-1", Cursor := 4, VersionLabel := "4.0", Semver := some { Major := 4 }, IsRequired := true },
        { Sequence := 2, ChannelID := "channel-id-1", Cursor := 3, VersionLabel := "3.0", Semver := some { Major := 3 }, IsRequired := true },
        { Sequence := 1, ChannelID := "channel-id-1", Cursor := 2, VersionLabel := "2.0", Semver := some { Major := 2 }, IsRequired := true },
        { ChannelID := "channel-id-1", Cursor := 1, VersionLabel := "1.0", Semver := some { Major := 1 }, IsRequired := true }],
      CurrentVersion := some { Sequence := 1, ChannelID := "channel-id-1", Cursor := 2, VersionLabel := "2.0", Semver := some { Major := 2 }, IsRequired := true } },
    isSemverRequired := true, expectedIsDeployable := false,
    expectedCause := "This version cannot be deployed because versions 3.0, 4.0 are required and must be deployed first." },
  -- case 22, line 1326: semver -- deployed version is from same channel, is required, required releases in between from same channel, different variants, 2 higher cursor and 1 lower cursor from different channel
  { version := { Sequence := 5, ChannelID := "channel-id-1", Cursor := 2, VersionLabel := "5.0", Semver := some { Major := 5 }, IsRequired := true },
    appVersions := some {
      AllVersions := [
        { Sequence := 5, ChannelID := "channel-id-1", Cursor := 2, VersionLabel := "5.0", Semver := some { Major := 5 }, IsRequired := true },
        { Sequence := 4, ChannelID := "channel-id-1", Cursor := 4, VersionLabel := "4.0", Semver := some { Major := 4 }, IsRequired := true },
        { Sequence := 3, ChannelID := "channel-id-2", Cursor := 1, VersionLabel := "3.1", Semver := some { Major := 3, Minor := 1 }, IsRequired := true },
        { Sequence := 2, ChannelID := "channel-id-1", Cursor := 3, VersionLabel := "3.0", Semver := some { Major := 3 }, IsRequired := true },
        { Sequence := 1, ChannelID := "channel-id-1", Cursor := 2, VersionLabel := "2.0", Semver := some { Major := 2 }, IsRequired := true },
        { ChannelID := "channel-id-1", Cursor := 1, VersionLabel := "1.0", Semver := some { Major := 1 }, IsRequired := true }],
      CurrentVersion := some { Sequence := 1, ChannelID := "channel-id-1", Cursor := 2, VersionLabel := "2.0", Semver := some { Major := 2 }, IsRequired := true } },
    isSemverRequired := true, expectedIsDeployable := false,
    expectedCause := "This version cannot be deployed because versions 3.0, 3.1, 4.0 are required and must be deployed first." },
  -- case 23, line 1417: semver -- deployed version is from same channel, not required, required and non-required releases in between from same channel, different variants
  { version := { Sequence := 5, ChannelID := "channel-id-1", Cursor := 6, VersionLabel := "6.0", Semver := some { Major := 6 } },
    appVersions := some {
      AllVersions := [
        { Sequence := 5, ChannelID := "channel-id-1", Cursor := 6, VersionLabel := "6.0", Semver := some { Major := 6 } },
        { Sequence := 4, ChannelID := "channel-id-1", Cursor := 5, VersionLabel := "5.0", Semver := some { Major := 5 }, IsRequired := true },
        { Sequence := 3, ChannelID := "channel-id-1", Cursor := 4, VersionLabel := "4.0", Semver := some { Major := 4 } },
        { Sequence := 2, ChannelID := "channel-id-1", Cursor := 3, VersionLabel := "3.0", Semver := some { Major := 3 }, IsRequired := true },
        { Sequence := 1, ChannelID := "channel-id-1", Cursor := 2, VersionLabel := "2.0", Semver := some { Major := 2 } },
        { ChannelID := "channel-id-1", Cursor := 1, VersionLabel := "1.0", Semver := some { Major := 1 }, IsRequired := true }],
      CurrentVersion := some { Sequence := 1, ChannelID := "channel-id-1", Cursor := 2, VersionLabel := "2.0", Semver := some { Major := 2 } } },
    isSemverRequired := true, expectedIsDeployable := false,
    expectedCause := "This version cannot be deployed because versions 3.0, 5.0 are required and must be deployed first." },
  -- case 24, line 1502: semver -- deployed version is from same channel, not required, required releases in between from same channel and same variants
  { version := { Sequence := 5, ChannelID := "channel-id-1", Cursor := 6, VersionLabel := "4.0", Semver := some { Major := 4 } },
    appVersions := some {
      AllVersions := [
        { Sequence := 5, ChannelID := "channel-id-1", Cursor := 6, VersionLabel := "4.0", Semver := some { Major := 4 } },
        { Sequence := 4, ChannelID := "channel-id-1", Cursor := 3, VersionLabel := "3.0", Semver := some { Major := 3 }, IsRequired := true },
        { Sequence := 3, ChannelID := "channel-id-1", Cursor := 3, VersionLabel := "3.0", Semver := some { Major := 3 }, IsRequired := true },
        { Sequence := 2, ChannelID := "channel-id-1", Cursor := 3, VersionLabel := "3.0", Semver := some { Major := 3 }, IsRequired := true },
        { Sequence := 1, ChannelID := "channel-id-1", Cursor := 2, VersionLabel := "2.0", Semver := some { Major := 2 } },
        { ChannelID := "channel-id-1", Cursor := 1, VersionLabel := "1.0", Semver := some { Major := 1 }, IsRequired := true }],
      CurrentVersion := some { Sequence := 1, ChannelID := "channel-id-1", Cursor := 2, VersionLabel := "2.0", Semver := some { Major := 2 } } },
    isSemverRequired := true, expectedIsDeployable := false,
    expectedCause := "This version cannot be deployed because version 3.0 is required and must be deployed first." }
]

/-! ## Store (`pkg/version/version.go`)

The tables and columns are those named by the SQL text of `version.go`. A SQL
`NULL` is `none`. Where a query has no `ORDER BY`, the first row is the first
matching row of the list. -/

/-- Publisher-side identity columns of a release, carried along unread by
`version.go`. -/
structure ReleaseIdentity where
  channelID : String := ""
  cursor : Int := 0
  versionLabel : String := ""
  semver : Option Semver := none
  isRequired : Bool := false
  deriving DecidableEq, Repr

/-- Row of `app_version`. -/
structure AppVersionRow where
  app_id : String
  sequence : Int
  preflight_spec : Option String := none
  app_spec : Option String := none
  kots_app_spec : Option String := none
  identity : ReleaseIdentity := {}
  deriving DecidableEq, Repr

/-- Row of `app_downstream_version`. -/
structure AppDownstreamVersionRow where
  app_id : String
  sequence : Int
  parent_sequence : Int
  status : Option String := none
  applied_at : Option Nat := none
  preflight_skipped : Option Bool := none
  preflight_result : Option String := none
  identity : ReleaseIdentity := {}
  deriving DecidableEq, Repr

/-- Row of `app_downstream`: the active-release pointer of one downstream. -/
structure AppDownstreamRow where
  app_id : String
  cluster_id : String := ""
  current_sequence : Option Int := none
  deriving DecidableEq, Repr

/-- The three tables `version.go` reads and writes. -/
structure Store where
  app_version : List AppVersionRow := []
  app_downstream_version : List AppDownstreamVersionRow := []
  app_downstream : List AppDownstreamRow := []
  deriving DecidableEq, Repr

/-- Value of `storetypes.VersionPendingPreflight`; its declaration is outside the
sources at hand, the value is the one named in the comment above the poll
(`version.go`, line 283). -/
def VersionPendingPreflight : String := "pending_preflight"

/-- The four columns scanned by `isBlockedDueToStricPreFlights`
(`sql.NullString` / `sql.NullBool`). -/
structure PreflightScan where
  status : Option String
  preflightSkipped : Option Bool
  preflightSpecStr : Option String
  preflightResultStr : Option String
  deriving DecidableEq, Repr

/-- `.String` of a `sql.NullString`: empty when the column is `NULL`. -/
def nullString (x : Option String) : String := x.getD ""

/-- `.Bool` of a `sql.NullBool`: false when the column is `NULL`. -/
def nullBool (x : Option Bool) : Bool := x.getD false

/-- The query of `isBlockedDueToStricPreFlights` (lines 248-262): `app_version`
left-joined with `app_downstream_version` on `app_id` and
`parent_sequence = sequence`. `none` is `sql.ErrNoRows`. -/
def preflightQuery (s : Store) (appID : String) (sequence : Int) : Option PreflightScan :=
  match s.app_version.find? (fun av => decide (av.app_id = appID) && decide (av.sequence = sequence)) with
  | none => none
  | some av =>
    match s.app_downstream_version.find?
        (fun adv => decide (adv.app_id = av.app_id) && decide (adv.parent_sequence = av.sequence)) with
    | none => some ⟨none, none, av.preflight_spec, none⟩
    | some adv => some ⟨adv.status, adv.preflight_skipped, av.preflight_spec, adv.preflight_result⟩

/-- The query of `getStatus` (lines 223-230). `none` is `sql.ErrNoRows`. -/
def statusQuery (s : Store) (appID : String) (sequence : Int) : Option (Option String) :=
  (s.app_downstream_version.find?
    (fun adv => decide (adv.app_id = appID) && decide (adv.parent_sequence = sequence))).map (·.status)

/-- `update app_downstream set current_sequence = $1 where app_id = $2`. -/
def updateCurrentSequence (s : Store) (sequence : Int) (appID : String) : Store :=
  { s with app_downstream := s.app_downstream.map fun d =>
      if d.app_id = appID then { d with current_sequence := some sequence } else d }

/-- `update app_downstream_version set status = 'deployed', applied_at = $3
where sequence = $1 and app_id = $2`. -/
def updateVersionStatus (s : Store) (sequence : Int) (appID : String) (now : Nat) : Store :=
  { s with app_downstream_version := s.app_downstream_version.map fun r =>
      if r.sequence = sequence ∧ r.app_id = appID then
        { r with status := some "deployed", applied_at := some now }
      else r }

/-! ### Environment of a call -/

/-- Helpers of `kotsutil`, `encoding/json` and `troubleshoot` used by the gate;
their bodies are outside the sources at hand, so they are parameters. `none` is
a returned error. -/
structure Helpers (Preflight Results : Type) where
  LoadPreflightFromContents : String → Option Preflight
  HasStrictPreflights : Preflight → Bool
  /-- The zero value `UploadPreflightResults{}`. -/
  emptyResults : Results
  /-- Unmarshalling of the stored JSON into `UploadPreflightResults`. -/
  Unmarshal : String → Option Results
  IsStrictPreflightFailing : Results → Bool

/-- Driver failures injected into the database operations of one call. -/
structure Faults where
  /-- `QueryRow(...).Scan` of the gate: 0 at entry, 1 for the re-read. -/
  scan : Nat → Bool := fun _ => false
  /-- The scan of the `n`-th `getStatus`. -/
  getStatus : Nat → Bool := fun _ => false
  begin : Bool := false
  execCurrentSequence : Bool := false
  execVersionStatus : Bool := false
  commit : Bool := false

/-- What surrounds one call: the helpers, what other sessions write to the store
before the `n`-th read that follows the entry query, the injected failures and
the clock value of `time.Now()`. -/
structure Env (Preflight Results : Type) where
  helpers : Helpers Preflight Results
  interfere : Nat → Store → Store := fun _ s => s
  faults : Faults := {}
  now : Nat := 0

/-- The store after the writes of other sessions up to the `n`-th read. -/
def evolve {P R : Type} (env : Env P R) : Nat → Store → Store
  | 0, s => s
  | n + 1, s => env.interfere n (evolve env n s)

/-! ### Validation gate -/

/-- Where `isBlockedDueToStricPreFlights` returns an error. -/
inductive GateError where
  /-- Entry query: "failed to scan" (line 271). -/
  | scan
  /-- Loading the spec: "failed to load preflights from spec" (line 278). -/
  | loadPreflight
  /-- A `getStatus` of the poll failed: "failed to poll for preflights results". -/
  | poll
  /-- Re-read after the poll: "failed to scan" (line 309). -/
  | rescan
  /-- Stored result: "failed to unmarshal preflightResults" (line 316). -/
  | unmarshal
  deriving DecidableEq, Repr

/-- `getStatus` (lines 220-238) as the `n`-th status read of a call: the status
string, or `none` for "failed to scan". -/
def getStatus {P R : Type} (env : Env P R) (n : Nat) (s : Store) (appID : String)
    (sequence : Int) : Option String :=
  if env.faults.getStatus n then none
  else (statusQuery s appID sequence).map nullString

/-- `wait.PollImmediateInfinite` around the condition of lines 287-296. The
`n`-th call of the condition reads the store after `env.interfere n`. The Go
loop has no bound; `fuel` bounds the number of condition calls and `none` means
the status was still pending when the fuel ran out. The result is the store at
the last read, the number of reads made, and whether the poll ended without
error. -/
def pollStatus {P R : Type} (env : Env P R) (appID : String) (sequence : Int) :
    Nat → Nat → Store → Option (Store × Nat × Bool)
  | 0, _, _ => none
  | fuel + 1, n, s =>
    let s1 := env.interfere n s
    match getStatus env n s1 appID sequence with
    | none => some (s1, n + 1, false)
    | some versionStatus =>
      if versionStatus ≠ VersionPendingPreflight then some (s1, n + 1, true)
      else pollStatus env appID sequence fuel (n + 1) s1

/-- Lines 274-281: whether the scanned spec declares strict preflights; `none`
is the load error. -/
def hasStrictPreflights {P R : Type} (env : Env P R) (row : PreflightScan) : Option Bool :=
  match row.preflightSpecStr with
  | some str =>
    if str ≠ "" then (env.helpers.LoadPreflightFromContents str).map env.helpers.HasStrictPreflights
    else some false
  | none => some false

/-- Lines 313-319: whether the scanned result shows a failing strict preflight;
`none` is the unmarshal error. A `NULL` or empty result is the zero value. -/
def strictPreflightFailing {P R : Type} (env : Env P R) (row : PreflightScan) : Option Bool :=
  match row.preflightResultStr with
  | some str =>
    if str ≠ "" then (env.helpers.Unmarshal str).map env.helpers.IsStrictPreflightFailing
    else some (env.helpers.IsStrictPreflightFailing env.helpers.emptyResults)
  | none => some (env.helpers.IsStrictPreflightFailing env.helpers.emptyResults)

/-- Line 285: the condition under which the gate polls. -/
def mustPoll (strict : Bool) (row : PreflightScan) : Bool :=
  strict && !nullBool row.preflightSkipped &&
    decide (nullString row.status = VersionPendingPreflight)

/-- Lines 313-319 on the row that is current at the end of the gate. -/
def gateVerdict {P R : Type} (env : Env P R) (strict : Bool) (row : PreflightScan) :
    Except GateError Bool :=
  match strictPreflightFailing env row with
  | none => .error .unmarshal
  | some failing => .ok (strict && failing)

/-- `isBlockedDueToStricPreFlights` (lines 240-320). The result is `none` when
the poll does not end within `fuel` reads; otherwise the store as other
sessions left it at the last read of the gate, with the returned pair
`(blocked, err)` as an `Except`. The gate itself writes nothing. -/
def isBlockedDueToStricPreFlights {P R : Type} (env : Env P R) (fuel : Nat) (s : Store)
    (appID : String) (sequence : Int) : Option (Store × Except GateError Bool) :=
  if env.faults.scan 0 then some (s, .error .scan)
  else
    match preflightQuery s appID sequence with
    | none => some (s, .error .scan)
    | some row =>
      match hasStrictPreflights env row with
      | none => some (s, .error .loadPreflight)
      | some strict =>
        if mustPoll strict row then
          match pollStatus env appID sequence fuel 0 s with
          | none => none
          | some (s1, _, false) => some (s1, .error .poll)
          | some (s1, n, true) =>
            -- fetch latest results
            let s2 := env.interfere n s1
            if env.faults.scan 1 then some (s2, .error .rescan)
            else
              match preflightQuery s2 appID sequence with
              | none => some (s2, .error .rescan)
              | some latest => some (s2, gateVerdict env strict latest)
        else some (s, gateVerdict env strict row)

/-! ### Deployment committer -/

/-- Errors returned by `DeployVersion`. -/
inductive DeployError where
  /-- "failed to validate strict preflights", wrapping the gate error. -/
  | strictPreflights (cause : GateError)
  /-- `util.ActionableError` with `NoRetry: true`: a strict analyzer has failed. -/
  | blocked
  /-- "failed to begin". -/
  | begin
  /-- "failed to update app downstream current sequence". -/
  | updateCurrentSequence
  /-- "failed to update app downstream version status". -/
  | updateVersionStatus
  /-- "failed to commit". -/
  | commit
  deriving DecidableEq, Repr

/-- A `sql.Tx`: the store as the transaction sees it; nothing of it is visible to
others until `Commit`. -/
structure Tx where
  view : Store
  deriving DecidableEq, Repr

/-- `DeployVersion` (lines 56-94). The result is `none` when the gate does not
return within `fuel` reads; otherwise the store after the call and the returned
error (`none` is `nil`). Both updates run on the transaction; on every error
return the deferred `tx.Rollback()` drops them. -/
def DeployVersion {P R : Type} (env : Env P R) (fuel : Nat) (s : Store) (appID : String)
    (sequence : Int) : Option (Store × Option DeployError) :=
  match isBlockedDueToStricPreFlights env fuel s appID sequence with
  | none => none
  | some (db, .error err) => some (db, some (.strictPreflights err))
  | some (db, .ok true) => some (db, some .blocked)
  | some (db, .ok false) =>
    if env.faults.begin then some (db, some .begin)
    else
      let tx : Tx := ⟨db⟩
      if env.faults.execCurrentSequence then some (db, some .updateCurrentSequence)
      else
        let tx : Tx := ⟨updateCurrentSequence tx.view sequence appID⟩
        if env.faults.execVersionStatus then some (db, some .updateVersionStatus)
        else
          let tx : Tx := ⟨updateVersionStatus tx.view sequence appID env.now⟩
          if env.faults.commit then some (db, some .commit)
          else some (tx.view, none)

/-! ### Reading the test table -/

/-- Whether the model of `isAppVersionDeployable` returns what a row of
`Test_isAppVersionDeployable` asserts (lines 1590-1595). -/
def reproduces (t : AppVersionDeployableTest) : Bool :=
  decide (isAppVersionDeployable t.version t.appVersions t.isSemverRequired =
    some (t.expectedIsDeployable, t.expectedCause))

/-- The row "non-semver -- deployed version is from a different channel, not
required, required releases in between from same channel, different variants"
(lines 435-477). -/
def nonSemverOtherChannelTest : AppVersionDeployableTest :=
  { version := { Sequence := 3, ChannelID := "channel-id-1", Cursor := 4, IsRequired := true },
    appVersions := some {
      AllVersions := [
        { Sequence := 3, ChannelID := "channel-id-1", Cursor := 4, IsRequired := true },
        { Sequence := 2, ChannelID := "channel-id-1", Cursor := 3, IsRequired := true },
        { Sequence := 1, ChannelID := "channel-id-1", Cursor := 2, IsRequired := true },
        { ChannelID := "channel-id-2", Cursor := 1 }],
      CurrentVersion := some { ChannelID := "channel-id-2", Cursor := 1 } },
    isSemverRequired := false, expectedIsDeployable := true,
    expectedCause := "" }

/-- The row "semver -- deployed version is from a different channel, not required,
required releases in between from same channel, same variants" (lines
973-1040). -/
def semverSameVariantsTest : AppVersionDeployableTest :=
  { version := { Sequence := 3, ChannelID := "channel-id-1", Cursor := 2, VersionLabel := "2.0", Semver := some { Major := 2 }, IsRequired := true },
    appVersions := some {
      AllVersions := [
        { Sequence := 3, ChannelID := "channel-id-1", Cursor := 2, VersionLabel := "2.0", Semver := some { Major := 2 }, IsRequired := true },
        { Sequence := 2, ChannelID := "channel-id-1", Cursor := 2, VersionLabel := "2.0", Semver := some { Major := 2 }, IsRequired := true },
        { Sequence := 1, ChannelID := "channel-id-1", Cursor := 2, VersionLabel := "2.0", Semver := some { Major := 2 }, IsRequired := true },
        { ChannelID := "channel-id-2", Cursor := 1, VersionLabel := "1.0", Semver := some { Major := 1 } }],
      CurrentVersion := some { ChannelID := "channel-id-2", Cursor := 1, VersionLabel := "1.0", Semver := some { Major := 1 } } },
    isSemverRequired := true, expectedIsDeployable := true,
    expectedCause := "" }

/-- The row "non-semver -- deployed version is from same channel, is required,
required releases in between from same channel, different variants, lower
cursor" (lines 566-621). -/
def nonSemverRequiredGapTest : AppVersionDeployableTest :=
  { version := { Sequence := 4, ChannelID := "channel-id-1", Cursor := 5, VersionLabel := "5.0" },
    appVersions := some {
      AllVersions := [
        { Sequence := 4, ChannelID := "channel-id-1", Cursor := 5, VersionLabel := "5.0" },
        { Sequence := 3, ChannelID := "channel-id-1", Cursor := 4, VersionLabel := "4.0", IsRequired := true },
        { Sequence := 2, ChannelID := "channel-id-1", Cursor := 3, VersionLabel := "3.0", IsRequired := true },
        { Sequence := 1, ChannelID := "channel-id-1", Cursor := 2, VersionLabel := "2.0", IsRequired := true },
        { ChannelID := "channel-id-1", Cursor := 1, VersionLabel := "1.0", IsRequired := true }],
      CurrentVersion := some { Sequence := 1, ChannelID := "channel-id-1", Cursor := 2, VersionLabel := "2.0", IsRequired := true } },
    isSemverRequired := false, expectedIsDeployable := false,
    expectedCause := "This version cannot be deployed because versions 3.0, 4.0 are required and must be deployed first." }

/-- The row "semver -- deployed version is from same channel, is required,
required releases in between from same channel, different variants, 2 higher
cursor and 1 lower cursor from different channel" (lines 1325-1415). -/
def semverThreeBlockersTest : AppVersionDeployableTest :=
  { version := { Sequence := 5, ChannelID := "channel-id-1", Cursor := 2, VersionLabel := "5.0", Semver := some { Major := 5 }, IsRequired := true },
    appVersions := some {
      AllVersions := [
        { Sequence := 5, ChannelID := "channel-id-1", Cursor := 2, VersionLabel := "5.0", Semver := some { Major := 5 }, IsRequired := true },
        { Sequence := 4, ChannelID := "channel-id-1", Cursor := 4, VersionLabel := "4.0", Semver := some { Major := 4 }, IsRequired := true },
        { Sequence := 3, ChannelID := "channel-id-2", Cursor := 1, VersionLabel := "3.1", Semver := some { Major := 3, Minor := 1 }, IsRequired := true },
        { Sequence := 2, ChannelID := "channel-id-1", Cursor := 3, VersionLabel := "3.0", Semver := some { Major := 3 }, IsRequired := true },
        { Sequence := 1, ChannelID := "channel-id-1", Cursor := 2, VersionLabel := "2.0", Semver := some { Major := 2 }, IsRequired := true },
        { ChannelID := "channel-id-1", Cursor := 1, VersionLabel := "1.0", Semver := some { Major := 1 }, IsRequired := true }],
      CurrentVersion := some { Sequence := 1, ChannelID := "channel-id-1", Cursor := 2, VersionLabel := "2.0", Semver := some { Major := 2 }, IsRequired := true } },
    isSemverRequired := true, expectedIsDeployable := false,
    expectedCause := "This version cannot be deployed because versions 3.0, 3.1, 4.0 are required and must be deployed first." }

/-! ### A worked store -/

/-- Helpers for the worked store: a spec declares strict preflights when its
text is "strict", a stored result shows a failing strict preflight when its
text is "fail". -/
def exampleHelpers : Helpers Bool Bool :=
  { LoadPreflightFromContents := fun str => some (decide (str = "strict")),
    HasStrictPreflights := fun p => p,
    emptyResults := false,
    Unmarshal := fun str => some (decide (str = "fail")),
    IsStrictPreflightFailing := fun r => r }

/-- One application with release 1, strict preflights declared and still
running, and release 0 deployed. -/
def pendingStore : Store :=
  { app_version := [{ app_id := "app", sequence := 1, preflight_spec := some "strict" }],
    app_downstream_version :=
      [{ app_id := "app", sequence := 1, parent_sequence := 1,
         status := some "pending_preflight" },
       { app_id := "app", sequence := 0, parent_sequence := 0, status := some "deployed" }],
    app_downstream := [{ app_id := "app", cluster_id := "this-cluster",
                         current_sequence := some 0 }] }

/-- The preflight run of another session ends: release 1 gets status "pending"
and the given result. -/
def finishPreflight (result : String) (s : Store) : Store :=
  { s with app_downstream_version := s.app_downstream_version.map fun r =>
      if r.sequence = 1 then { r with status := some "pending", preflight_result := some result }
      else r }

/-- An environment in which the preflight run ends, with the given result,
between the first and the second status read of the poll. -/
def waitingEnv (result : String) (faults : Faults) : Env Bool Bool :=
  { helpers := exampleHelpers,
    interfere := fun n s => if n = 1 then finishPreflight result s else s,
    faults := faults,
    now := 1700000000 }

/-- An environment in which no other session writes and `tx.Commit()` fails. -/
def commitFailsEnv : Env Bool Bool :=
  { helpers := exampleHelpers, faults := { commit := true } }

/-- The row "non-semver -- deployed version is from same channel, not required,
required releases in between from same channel and same variants" (lines
747-807). -/
def nonSemverSameLabelTest : AppVersionDeployableTest :=
  { version := { Sequence := 5, ChannelID := "channel-id-1", Cursor := 6, VersionLabel := "4.0" },
    appVersions := some {
      AllVersions := [
        { Sequence := 5, ChannelID := "channel-id-1", Cursor := 6, VersionLabel := "4.0" },
        { Sequence := 4, ChannelID := "channel-id-1", Cursor := 3, VersionLabel := "3.0", IsRequired := true },
        { Sequence := 3, ChannelID := "channel-id-1", Cursor := 3, VersionLabel := "3.0", IsRequired := true },
        { Sequence := 2, ChannelID := "channel-id-1", Cursor := 3, VersionLabel := "3.0", IsRequired := true },
        { Sequence := 1, ChannelID := "channel-id-1", Cursor := 2, VersionLabel := "2.0" },
        { ChannelID := "channel-id-1", Cursor := 1, VersionLabel := "1.0", IsRequired := true }],
      CurrentVersion := some { Sequence := 1, ChannelID := "channel-id-1", Cursor := 2, VersionLabel := "2.0" } },
    isSemverRequired := false, expectedIsDeployable := false,
    expectedCause := "This version cannot be deployed because version 3.0 is required and must be deployed first." }

/-- The row "non-semver -- deployed version is from same channel, is required,
required releases in between from same channel, different variants, 2 higher
cursor and 1 lower cursor from different channel" (lines 622-686). -/
def nonSemverHigherCursorTest : AppVersionDeployableTest :=
  { version := { Sequence := 5, ChannelID := "channel-id-1", Cursor := 2, VersionLabel := "2.0", IsRequired := true },
    appVersions := some {
      AllVersions := [
        { Sequence := 5, ChannelID := "channel-id-1", Cursor := 2, VersionLabel := "2.0", IsRequired := true },
        { Sequence := 4, ChannelID := "channel-id-1", Cursor := 4, VersionLabel := "4.0", IsRequired := true },
        { Sequence := 3, ChannelID := "channel-id-2", Cursor := 1, VersionLabel := "3.1", IsRequired := true },
        { Sequence := 2, ChannelID := "channel-id-1", Cursor := 3, VersionLabel := "3.0", IsRequired := true },
        { Sequence := 1, ChannelID := "channel-id-1", Cursor := 2, VersionLabel := "2.0", IsRequired := true },
        { ChannelID := "channel-id-1", Cursor := 1, VersionLabel := "1.0", IsRequired := true }],
      CurrentVersion := some { Sequence := 1, ChannelID := "channel-id-1", Cursor := 2, VersionLabel := "2.0", IsRequired := true } },
    isSemverRequired := false, expectedIsDeployable := true,
    expectedCause := "" }

/-- The worked store with release 1 declaring no preflight spec at all (`NULL`),
while its status is still `pending_preflight` and a failing result is stored. -/
def noSpecStore : Store :=
  { app_version := [{ app_id := "app", sequence := 1, preflight_spec := none }],
    app_downstream_version :=
      [{ app_id := "app", sequence := 1, parent_sequence := 1,
         status := some "pending_preflight", preflight_result := some "fail" },
       { app_id := "app", sequence := 0, parent_sequence := 0, status := some "deployed" }],
    app_downstream := [{ app_id := "app", cluster_id := "this-cluster",
                         current_sequence := some 0 }] }

/-- An environment in which no other session writes and the second status read
of the poll fails in the driver. -/
def statusLookupFailsEnv : Env Bool Bool :=
  { helpers := exampleHelpers, faults := { getStatus := fun n => decide (n = 1) } }

/-! ### Reading the returned error -/

/-- The type `util.ActionableError` as `DeployVersion` builds it (lines 63-66). -/
structure ActionableError where
  NoRetry : Bool
  Message : String
  deriving DecidableEq, Repr

/-- The `util.ActionableError` an error of `DeployVersion` is, if it is one. -/
def DeployError.actionable : DeployError → Option ActionableError
  | .blocked =>
    some { NoRetry := true,
           Message := "Unable to deploy as preflight check's strict analyzer has failed" }
  | _ => none

/-- The message `errors.Wrap` puts in front of the cause, naming the step that
failed (lines 60, 73, 80, 86, 90); `none` for the error that is not wrapped. -/
def DeployError.wrap : DeployError → Option String
  | .strictPreflights _ => some "failed to validate strict preflights"
  | .blocked => none
  | .begin => some "failed to begin"
  | .updateCurrentSequence => some "failed to update app downstream current sequence"
  | .updateVersionStatus => some "failed to update app downstream version status"
  | .commit => some "failed to commit"

/-! ### The pointer invariant -/

/-- Whether every active-release pointer that is set names a release row of the
same application in `app_downstream_version`. -/
def pointerNamesRelease (st : Store) : Bool :=
  st.app_downstream.all fun d =>
    match d.current_sequence with
    | none => true
    | some q =>
      st.app_downstream_version.any fun rel =>
        decide (rel.app_id = d.app_id) && decide (rel.sequence = q)

/-- An environment in which no other session writes and nothing fails. -/
def quietEnv : Env Bool Bool := { helpers := exampleHelpers }

/-- A store in which application version 5 exists in `app_version` but has no
row in `app_downstream_version` yet; release 0 is deployed. -/
def versionWithoutReleaseStore : Store :=
  { app_version := [{ app_id := "app", sequence := 5 }, { app_id := "app", sequence := 0 }],
    app_downstream_version :=
      [{ app_id := "app", sequence := 0, parent_sequence := 0, status := some "deployed" }],
    app_downstream := [{ app_id := "app", cluster_id := "this-cluster",
                         current_sequence := some 0 }] }

/-- The worked store with the preflights of release 1 marked skipped by the
operator while its status is still `pending_preflight`. -/
def skippedStore : Store :=
  { pendingStore with
    app_downstream_version :=
      [{ app_id := "app", sequence := 1, parent_sequence := 1,
         status := some "pending_preflight", preflight_skipped := some true }] }

/-! ### Stores that differ only in identity columns -/

/-- The store with the publisher-side identity columns (channel, cursor, version
label, semver, required flag) of every release blanked. Two stores differ only
in those columns exactly when they are equal after blanking. -/
def eraseIdentity (s : Store) : Store :=
  { s with
    app_version := s.app_version.map fun r => { r with identity := {} },
    app_downstream_version := s.app_downstream_version.map fun r => { r with identity := {} } }

/-- The releases of the test row at lines 566-621 as a store: release 1 is
deployed, releases 2 and 3 are required, release 4 is the target; no preflight
spec is declared. -/
def requiredGapStore : Store :=
  { app_version :=
      [{ app_id := "app", sequence := 4 }, { app_id := "app", sequence := 3 },
       { app_id := "app", sequence := 2 }, { app_id := "app", sequence := 1 },
       { app_id := "app", sequence := 0 }],
    app_downstream_version :=
      [{ app_id := "app", sequence := 4, parent_sequence := 4, status := some "pending",
         identity := { channelID := "channel-id-1", cursor := 5, versionLabel := "5.0" } },
       { app_id := "app", sequence := 3, parent_sequence := 3, status := some "pending",
         identity := { channelID := "channel-id-1", cursor := 4, versionLabel := "4.0",
                       isRequired := true } },
       { app_id := "app", sequence := 2, parent_sequence := 2, status := some "pending",
         identity := { channelID := "channel-id-1", cursor := 3, versionLabel := "3.0",
                       isRequired := true } },
       { app_id := "app", sequence := 1, parent_sequence := 1, status := some "deployed",
         identity := { channelID := "channel-id-1", cursor := 2, versionLabel := "2.0",
                       isRequired := true } },
       { app_id := "app", sequence := 0, parent_sequence := 0, status := some "deployed",
         identity := { channelID := "channel-id-1", cursor := 1, versionLabel := "1.0",
                       isRequired := true } }],
    app_downstream := [{ app_id := "app", cluster_id := "this-cluster",
                         current_sequence := some 1 }] }

/-! ## Release metadata readers (`pkg/version/version.go`, lines 96-218) -/

/-- A link of the application descriptor (`Spec.Descriptor.Links`). -/
structure Link where
  Description : String := ""
  URL : String := ""
  deriving DecidableEq, Repr

/-- An entry of `Spec.ApplicationPorts` of the KOTS application. -/
structure ApplicationPort where
  ServiceName : String := ""
  ServicePort : Int := 0
  LocalPort : Int := 0
  ApplicationURL : String := ""
  deriving DecidableEq, Repr

/-- The type `types.RealizedLink`. -/
structure RealizedLink where
  Title : String
  Uri : String
  deriving DecidableEq, Repr

/-- The type `types.ForwardedPort`. -/
structure ForwardedPort where
  ServiceName : String
  ServicePort : Int
  LocalPort : Int
  ApplicationURL : String
  deriving DecidableEq, Repr

/-- The two uses of the universal deserializer in `GetRealizedLinksFromAppSpec`:
the links of the decoded `Application` and the ports of the decoded KOTS
`Application`. The decoder is outside the sources at hand, so it is a
parameter; `none` is a decode error. -/
structure Decoders where
  decodeApplication : String → Option (List Link)
  decodeKotsApplication : String → Option (List ApplicationPort)

/-- Where `GetRealizedLinksFromAppSpec` returns an error. -/
inductive LinksError where
  /-- "failed to scan" (line 107). -/
  | scan
  /-- "failed to decode app spec yaml" (line 117). -/
  | decodeAppSpec
  /-- "failed to decode kots app spec yaml" (line 123). -/
  | decodeKotsAppSpec
  deriving DecidableEq, Repr

/-- The query of line 98: `app_spec` and `kots_app_spec` of the first matching
row of `app_version`; `none` is `sql.ErrNoRows`. -/
def appSpecQuery (s : Store) (appID : String) (sequence : Int) :
    Option (Option String × Option String) :=
  (s.app_version.find?
    (fun av => decide (av.app_id = appID) && decide (av.sequence = sequence))).map
    fun av => (av.app_spec, av.kots_app_spec)

/-- Lines 129-134: the URL of a link after the loop over the declared ports;
every port whose `ApplicationURL` is the link URL overwrites the result. -/
def rewriteURL (ports : List ApplicationPort) (url : String) : String :=
  ports.foldl
    (fun rewrittenURL port =>
      if port.ApplicationURL = url then "http://localhost:" ++ toString port.LocalPort
      else rewrittenURL)
    url

/-- `GetRealizedLinksFromAppSpec` (lines 96-143). `scanFails` is a driver error
of `row.Scan` other than `sql.ErrNoRows`. -/
def GetRealizedLinksFromAppSpec (dec : Decoders) (scanFails : Bool) (s : Store)
    (appID : String) (sequence : Int) : Except LinksError (List RealizedLink) :=
  if scanFails then .error .scan
  else
    match appSpecQuery s appID sequence with
    | none => .ok []
    | some (appSpecStr, kotsAppSpecStr) =>
      if nullString appSpecStr = "" then .ok []
      else
        match dec.decodeApplication (nullString appSpecStr) with
        | none => .error .decodeAppSpec
        | some links =>
          match dec.decodeKotsApplication (nullString kotsAppSpecStr) with
          | none => .error .decodeKotsAppSpec
          | some ports =>
            .ok (links.map fun link =>
              { Title := link.Description, Uri := rewriteURL ports link.URL })

/-- A Go `error` value with the messages `errors.Wrap` stacks on it. -/
inductive GoError where
  | base (message : String)
  | wrapped (message : String) (cause : GoError)
  deriving DecidableEq, Repr

/-- `errors.Wrap` of `github.com/pkg/errors`: it annotates `err` with the
message, and returns nil when `err` is nil. -/
def errorsWrap : Option GoError → String → Option GoError
  | none, _ => none
  | some err, message => some (.wrapped message err)

/-- A container status of a pod: the `Ready` flag. -/
structure ContainerStatus where
  Ready : Bool := false
  deriving DecidableEq, Repr

/-- A pod as the port reader sees it: phase and container statuses. -/
structure Pod where
  Phase : String := ""
  ContainerStatuses : List ContainerStatus := []
  deriving DecidableEq, Repr

/-- Value of `corev1.PodRunning`. -/
def PodRunning : String := "Running"

/-- The cluster behind the clientset, in the application namespace: the selector
of a service by name and the pods matching a selector; `none` is an error of
the API call. -/
structure Cluster where
  getService : String → Option (List (String × String))
  listPods : List (String × String) → Option (List Pod)

/-- The part of the application version the port reader uses: the ports of the
KOTS application in `KOTSKinds`, which may be nil. -/
structure AppVersion where
  KOTSKinds : Option (List ApplicationPort) := none

/-- Lines 193-202: whether a listed pod is running with a ready container. -/
def hasReadyPod (pods : List Pod) : Bool :=
  pods.foldl
    (fun ready pod =>
      if pod.Phase = PodRunning then
        pod.ContainerStatuses.foldl (fun ready2 status => if status.Ready then true else ready2)
          ready
      else ready)
    false

/-- Lines 180-207 for one declared port: whether the loop reaches the `append`. -/
def portIsForwarded (cluster : Cluster) (port : ApplicationPort) : Bool :=
  match cluster.getService port.ServiceName with
  | none => false
  | some selector =>
    match cluster.listPods selector with
    | none => false
    | some pods => hasReadyPod pods

/-- `GetForwardedPortsFromAppSpec` (lines 145-218). The two arguments are the
results of `store.GetStore().GetAppVersion` and `k8sutil.GetClientset`; the
result is the returned pair, a nil slice and a nil error being `none`. -/
def GetForwardedPortsFromAppSpec (getAppVersion : Except GoError AppVersion)
    (getClientset : Except GoError Cluster) : Option (List ForwardedPort) × Option GoError :=
  match getAppVersion with
  | .error e => (none, errorsWrap (some e) "failed to get app version")
  | .ok appVersion =>
    let err : Option GoError := none
    match appVersion.KOTSKinds with
    | none => (none, errorsWrap err "failed to get kots kinds for app")
    | some applicationPorts =>
      if applicationPorts.length = 0 then (some [], none)
      else
        match getClientset with
        | .error e => (none, errorsWrap (some e) "failed to get clientset")
        | .ok clientset =>
          (some (applicationPorts.foldl
            (fun ports port =>
              if portIsForwarded clientset port then
                ports ++ [{ ServiceName := port.ServiceName, ServicePort := port.ServicePort,
                            LocalPort := port.LocalPort,
                            ApplicationURL := port.ApplicationURL }]
              else ports)
            []), none)

/-! ### A worked release with links and ports -/

/-- Two declared ports with the same application URL, and one without a
service behind it. -/
def examplePorts : List ApplicationPort :=
  [{ ServiceName := "web", ServicePort := 80, LocalPort := 8888,
     ApplicationURL := "http://my-app" },
   { ServiceName := "web-admin", ServicePort := 81, LocalPort := 9999,
     ApplicationURL := "http://my-app" },
   { ServiceName := "gone", ServicePort := 82, LocalPort := 7777,
     ApplicationURL := "http://gone" }]

/-- Decoders for the worked release: the text "app-yaml" decodes to two links,
the text "kots-yaml" to `examplePorts`, anything else fails. -/
def exampleDecoders : Decoders :=
  { decodeApplication := fun str =>
      if str = "app-yaml" then
        some [{ Description := "Open App", URL := "http://my-app" },
              { Description := "Docs", URL := "http://docs" }]
      else none,
    decodeKotsApplication := fun str => if str = "kots-yaml" then some examplePorts else none }

/-- A store whose release 1 carries both specs. -/
def linksStore : Store :=
  { app_version := [{ app_id := "app", sequence := 1, app_spec := some "app-yaml",
                      kots_app_spec := some "kots-yaml" }] }

/-- A cluster in which the service "web" has a running pod with a ready
container, the service "web-admin" has only a pending pod, and every other
service lookup fails. -/
def exampleCluster : Cluster :=
  { getService := fun name =>
      if name = "web" then some [("app", "web")]
      else if name = "web-admin" then some [("app", "web-admin")]
      else none,
    listPods := fun selector =>
      if selector = [("app", "web")] then
        some [{ Phase := "Pending" },
              { Phase := "Running", ContainerStatuses := [{ Ready := false }, { Ready := true }] }]
      else if selector = [("app", "web-admin")] then
        some [{ Phase := "Pending", ContainerStatuses := [{ Ready := true }] }]
      else none }

/-! ## Postgres objects (`pkg/kotsadm/postgres_objects.go`) -/

/-- The type `resource.Quantity`, kept as its text. -/
abbrev Quantity := String

/-- An item of `LimitRange.Spec.Limits`: its type (`Type` in the source) and the
`Max` and `Min` resource lists. -/
structure LimitRangeItem where
  Type_ : String := ""
  Max : List (String × Quantity) := []
  Min : List (String × Quantity) := []
  deriving DecidableEq, Repr

/-- The fields of `types.DeployOptions` read by `postgresStatefulset`;
`LimitRange` is `none` when the pointer is nil, else the limits of its spec. -/
structure DeployOptions where
  Namespace : String := ""
  LimitRange : Option (List LimitRangeItem) := none
  IsOpenShift : Bool := false
  deriving DecidableEq, Repr

/-- The type `metav1.ObjectMeta`: name, namespace, labels. -/
structure ObjectMeta where
  Name : String := ""
  Namespace : String := ""
  Labels : List (String × String) := []
  deriving DecidableEq, Repr

/-- The type `corev1.PodSecurityContext`. -/
structure PodSecurityContext where
  RunAsUser : Option Int := none
  FSGroup : Option Int := none
  deriving DecidableEq, Repr

/-- A volume backed by a persistent volume claim. -/
structure Volume where
  Name : String
  ClaimName : String
  deriving DecidableEq, Repr

/-- The type `corev1.ContainerPort`. -/
structure ContainerPort where
  Name : String
  ContainerPort : Int
  deriving DecidableEq, Repr

/-- The type `corev1.VolumeMount`. -/
structure VolumeMount where
  Name : String
  MountPath : String
  deriving DecidableEq, Repr

/-- The type `corev1.EnvVar`: a literal value, or a key of a named secret. -/
structure EnvVar where
  Name : String
  Value : String := ""
  SecretKeyRef : Option (String × String) := none
  deriving DecidableEq, Repr

/-- The type `corev1.Probe` with an exec handler. -/
structure Probe where
  InitialDelaySeconds : Int := 0
  PeriodSeconds : Int := 0
  TimeoutSeconds : Int := 0
  FailureThreshold : Int := 0
  Command : List String := []
  deriving DecidableEq, Repr

/-- The type `corev1.Container`. -/
structure Container where
  Image : String
  ImagePullPolicy : String
  Name : String
  Ports : List ContainerPort
  VolumeMounts : List VolumeMount
  Env : List EnvVar
  LivenessProbe : Option Probe
  ReadinessProbe : Option Probe
  deriving DecidableEq, Repr

/-- The type `corev1.PodTemplateSpec`. -/
structure PodTemplateSpec where
  ObjectMeta : ObjectMeta
  SecurityContext : PodSecurityContext
  Volumes : List Volume
  Containers : List Container
  deriving DecidableEq, Repr

/-- The type `corev1.PersistentVolumeClaim` of a volume claim template. -/
structure PersistentVolumeClaim where
  ObjectMeta : ObjectMeta
  AccessModes : List String
  Requests : List (String × Quantity)
  deriving DecidableEq, Repr

/-- The type `appsv1.StatefulSet`. -/
structure StatefulSet where
  APIVersion : String
  Kind : String
  ObjectMeta : ObjectMeta
  MatchLabels : List (String × String)
  VolumeClaimTemplates : List PersistentVolumeClaim
  Template : PodTemplateSpec
  deriving DecidableEq, Repr

/-- The type `intstr.IntOrString`. -/
inductive IntOrString where
  | int (value : Int)
  | str (value : String)
  deriving DecidableEq, Repr

/-- The type `corev1.ServicePort`. -/
structure ServicePort where
  Name : String
  Port : Int
  TargetPort : IntOrString
  deriving DecidableEq, Repr

/-- The type `corev1.Service`. -/
structure Service where
  APIVersion : String
  Kind : String
  ObjectMeta : ObjectMeta
  Selector : List (String × String)
  Type_ : String
  Ports : List ServicePort
  deriving DecidableEq, Repr

/-- Lines 19-34: the last `Max["storage"]` and the last `Min["storage"]` among
the limits of type `PersistentVolumeClaim`. -/
def allowedStorage (limits : List LimitRangeItem) : Option Quantity × Option Quantity :=
  limits.foldl
    (fun (allowed : Option Quantity × Option Quantity) limit =>
      if limit.Type_ = "PersistentVolumeClaim" then
        ((match limit.Max.lookup "storage" with
          | some max => some max
          | none => allowed.1),
         (match limit.Min.lookup "storage" with
          | some min => some min
          | none => allowed.2))
      else allowed)
    (none, none)

/-- `postgresStatefulset` (lines 15-182). `promptForSizeIfNotBetween` is declared
elsewhere in the package and asks the operator, so it is a parameter (label,
size, allowed minimum, allowed maximum); the result is `none` when the function
ends the process with `os.Exit(-1)`. -/
def postgresStatefulset
    (promptForSizeIfNotBetween :
      String → Quantity → Option Quantity → Option Quantity → Option Quantity)
    (deployOptions : DeployOptions) : Option StatefulSet :=
  let size0 : Quantity := "1Gi"
  let sized : Option Quantity :=
    match deployOptions.LimitRange with
    | some limits =>
      let allowed := allowedStorage limits
      promptForSizeIfNotBetween "postgres" size0 allowed.2 allowed.1
    | none => some size0
  match sized with
  | none => none
  | some size =>
    let securityContext : PodSecurityContext :=
      if !deployOptions.IsOpenShift then { RunAsUser := some 999, FSGroup := some 999 }
      else {}
    some
      { APIVersion := "apps/v1",
        Kind := "StatefulSet",
        ObjectMeta := { Name := "kotsadm-postgres", Namespace := deployOptions.Namespace },
        MatchLabels := [("app", "kotsadm-postgres")],
        VolumeClaimTemplates :=
          [{ ObjectMeta := { Name := "kotsadm-postgres" },
             AccessModes := ["ReadWriteOnce"],
             Requests := [("storage", size)] }],
        Template :=
          { ObjectMeta := { Labels := [("app", "kotsadm-postgres")] },
            SecurityContext := securityContext,
            Volumes := [{ Name := "kotsadm-postgres", ClaimName := "kotsadm-postgres" }],
            Containers :=
              [{ Image := "postgres:10.7",
                 ImagePullPolicy := "IfNotPresent",
                 Name := "kotsadm-postgres",
                 Ports := [{ Name := "postgres", ContainerPort := 5432 }],
                 VolumeMounts :=
                   [{ Name := "kotsadm-postgres", MountPath := "/var/lib/postgresql/data" }],
                 Env :=
                   [{ Name := "PGDATA", Value := "/var/lib/postgresql/data/pgdata" },
                    { Name := "POSTGRES_USER", Value := "kotsadm" },
                    { Name := "POSTGRES_PASSWORD",
                      SecretKeyRef := some ("kotsadm-postgres", "password") },
                    { Name := "POSTGRES_DB", Value := "kotsadm" }],
                 LivenessProbe :=
                   some { InitialDelaySeconds := 30, TimeoutSeconds := 5, FailureThreshold := 3,
                          Command := ["/bin/sh", "-i", "-c",
                                      "pg_isready -U kotsadm -h 127.0.0.1 -p 5432"] },
                 ReadinessProbe :=
                   some { InitialDelaySeconds := 1, PeriodSeconds := 1, TimeoutSeconds := 1,
                          Command := ["/bin/sh", "-i", "-c",
                                      "pg_isready -U kotsadm -h 127.0.0.1 -p 5432"] } }] } }

/-- `postgresService` (lines 184-210). -/
def postgresService (ns : String) : Service :=
  { APIVersion := "v1",
    Kind := "Service",
    ObjectMeta := { Name := "kotsadm-postgres", Namespace := ns },
    Selector := [("app", "kotsadm-postgres")],
    Type_ := "ClusterIP",
    Ports := [{ Name := "postgres", Port := 5432, TargetPort := .str "postgres" }] }

/-! ## Theorems: release identity comparator -/

/-- The model of `isSameUpstreamRelease` returns what every row of
`Test_isSameUpstreamRelease` expects. -/
theorem isSameUpstreamRelease_reproduces_tests :
    ∀ t ∈ sameUpstreamReleaseTests,
      isSameUpstreamRelease t.v1 t.v2 t.isSemverRequired = t.expected := by
  decide

/-- Clause (b) of the comparator as a proposition. -/
theorem semverClause_iff (a b : DownstreamVersion) :
    (match a.Semver, b.Semver with
      | some s1, some s2 => decide (s1 = s2)
      | _, _ => false) = true ↔ ∃ x, a.Semver = some x ∧ b.Semver = some x := by
  cases ha : a.Semver <;> cases hb : b.Semver <;> simp [eq_comm]

/-- C5: `isSameUpstreamRelease a b s` is true exactly when channel and cursor
agree, or `s` is set and both semvers are present and equal; hence with `s`
false or a semver absent it equals channel+cursor equality, and with `s` false
it does not change when the semvers are replaced. -/
theorem isSameUpstreamRelease_iff (a b : DownstreamVersion) (s : Bool) :
    (isSameUpstreamRelease a b s = true ↔
      (a.ChannelID = b.ChannelID ∧ a.Cursor = b.Cursor) ∨
      (s = true ∧ ∃ x, a.Semver = some x ∧ b.Semver = some x)) ∧
    ((s = false ∨ a.Semver = none ∨ b.Semver = none) →
      isSameUpstreamRelease a b s = decide (a.ChannelID = b.ChannelID ∧ a.Cursor = b.Cursor)) ∧
    (∀ x y : Option Semver,
      isSameUpstreamRelease { a with Semver := x } { b with Semver := y } false =
        isSameUpstreamRelease a b false) := by
  refine ⟨?_, ?_, ?_⟩
  · unfold isSameUpstreamRelease
    rw [Bool.or_eq_true, Bool.and_eq_true, Bool.and_eq_true, semverClause_iff]
    simp
  · intro h
    unfold isSameUpstreamRelease
    rcases h with h | h | h
    · subst h; simp
    · rw [h]; simp
    · rw [h]; cases a.Semver <;> simp
  · intro x y
    simp [isSameUpstreamRelease]

/-- C5 (witness): two releases of different channels with equal semver are the
same upstream release only when the flag is set. -/
theorem isSameUpstreamRelease_iff_witness :
    isSameUpstreamRelease
        { ChannelID := "channel-id-1", Cursor := 2, Semver := some { Major := 4 } }
        { ChannelID := "channel-id-2", Cursor := 3, Semver := some { Major := 4 } } false =
      decide (("channel-id-1" : String) = "channel-id-2" ∧ (2 : Int) = 3) :=
  (isSameUpstreamRelease_iff
    { ChannelID := "channel-id-1", Cursor := 2, Semver := some { Major := 4 } }
    { ChannelID := "channel-id-2", Cursor := 3, Semver := some { Major := 4 } } false).2.1
    (Or.inl rfl)

/-! ## Theorems: deployability evaluator, rules 1 to 3 -/

/-- C2: a target with a failing strict preflight is never deployable, with the
fixed cause, for every history, the absent one included. -/
theorem isAppVersionDeployable_failing_strict (version : DownstreamVersion)
    (appVersions : Option DownstreamVersions) (isSemverRequired : Bool)
    (h : version.HasFailingStrictPreflights = true) :
    isAppVersionDeployable version appVersions isSemverRequired =
      some (false,
        "Deployment is disabled as a strict analyzer in this version's preflight checks has failed or has not been run.") := by
  simp [isAppVersionDeployable, h, strictPreflightCause]

/-- C2 (witness): the first row of `Test_isAppVersionDeployable`, with a nil
history. -/
theorem isAppVersionDeployable_failing_strict_witness :
    ({ HasFailingStrictPreflights := true } : DownstreamVersion).HasFailingStrictPreflights = true ∧
    isAppVersionDeployable { HasFailingStrictPreflights := true } none false =
      some (false,
        "Deployment is disabled as a strict analyzer in this version's preflight checks has failed or has not been run.") :=
  ⟨rfl, isAppVersionDeployable_failing_strict { HasFailingStrictPreflights := true } none false rfl⟩

/-- C3 (counterexample): with nothing deployed yet, a target whose strict
preflights fail is not deployable: rule 1 comes first. -/
theorem not_deployable_fresh_install_when_strict_failing :
    ({ } : DownstreamVersions).CurrentVersion = none ∧
    isAppVersionDeployable { HasFailingStrictPreflights := true } (some { }) false ≠
      some (true, "") := by
  decide

/-- C3 (amended): for a target without failing strict preflights and a history
with no current release, the result is `(true, "")`. -/
theorem isAppVersionDeployable_no_current (version : DownstreamVersion)
    (h : DownstreamVersions) (isSemverRequired : Bool)
    (hstrict : version.HasFailingStrictPreflights = false)
    (hcur : h.CurrentVersion = none) :
    isAppVersionDeployable version (some h) isSemverRequired = some (true, "") := by
  simp [isAppVersionDeployable, hstrict, hcur]

/-- C3 (witness): the row "no version is deployed yet" of the test table. -/
theorem isAppVersionDeployable_no_current_witness :
    isAppVersionDeployable { } (some { }) false = some (true, "") :=
  isAppVersionDeployable_no_current { } { } false rfl rfl

/-- C4 (counterexample): re-deploying the active release at sequence 7 is refused
when the target has a failing strict preflight. -/
theorem not_deployable_redeploy_when_strict_failing :
    isAppVersionDeployable { Sequence := 7, HasFailingStrictPreflights := true }
      (some { CurrentVersion := some { Sequence := 7 } }) false ≠ some (true, "") := by
  decide

/-- C4 (amended): for a target without failing strict preflights whose sequence
is the current release's, the result is `(true, "")`, whatever the other
fields of target and history are. -/
theorem isAppVersionDeployable_same_sequence (version current : DownstreamVersion)
    (h : DownstreamVersions) (isSemverRequired : Bool)
    (hstrict : version.HasFailingStrictPreflights = false)
    (hcur : h.CurrentVersion = some current)
    (hseq : version.Sequence = current.Sequence) :
    isAppVersionDeployable version (some h) isSemverRequired = some (true, "") := by
  simp [isAppVersionDeployable, hstrict, hcur, hseq]

/-- C4 (witness): the row "version is same as deployed version" of the test
table, sequence 7 over sequence 7. -/
theorem isAppVersionDeployable_same_sequence_witness :
    isAppVersionDeployable { Sequence := 7 }
      (some { CurrentVersion := some { Sequence := 7 } }) false = some (true, "") :=
  isAppVersionDeployable_same_sequence { Sequence := 7 } { Sequence := 7 }
    { CurrentVersion := some { Sequence := 7 } } false rfl rfl rfl

/-! ## Theorems: deployability evaluator, rule 4 -/

/-- The blocking predicate as a proposition. -/
theorem isBlocking_iff (version current : DownstreamVersion) (s : Bool) (v : DownstreamVersion) :
    isBlocking version current s v = true ↔
      (min version.Sequence current.Sequence < v.Sequence ∧
        v.Sequence < max version.Sequence current.Sequence ∧
        v.IsRequired = true ∧
        isSameUpstreamRelease v version s = false ∧
        isSameUpstreamRelease v current s = false) := by
  simp [isBlocking, and_assoc]

theorem dedupLabels_eq_nil_iff (l : List String) : dedupLabels l = [] ↔ l = [] := by
  cases l <;> simp [dedupLabels]

theorem insertionSort_eq_nil_iff {α : Type} (r : α → α → Prop) [DecidableRel r] (l : List α) :
    l.insertionSort r = [] ↔ l = [] := by
  constructor
  · intro h
    have hlen := (List.perm_insertionSort r l).length_eq
    rw [h] at hlen
    exact List.length_eq_zero.mp hlen.symm
  · intro h
    subst h
    rfl

/-- No label is listed exactly when no release of the history blocks. -/
theorem blockingLabels_eq_nil_iff (version current : DownstreamVersion) (s : Bool)
    (all : List DownstreamVersion) :
    blockingLabels version current s all = [] ↔
      ∀ v ∈ all, isBlocking version current s v = false := by
  unfold blockingLabels blockingVersions
  rw [dedupLabels_eq_nil_iff, List.map_eq_nil_iff, insertionSort_eq_nil_iff,
    List.filter_eq_nil_iff]
  simp

/-- Rule 4 in one equation: past rules 1 to 3 the outcome is decided by the
list of blocking labels. -/
theorem isAppVersionDeployable_rule4 (version current : DownstreamVersion)
    (h : DownstreamVersions) (s : Bool)
    (hstrict : version.HasFailingStrictPreflights = false)
    (hcur : h.CurrentVersion = some current)
    (hseq : version.Sequence ≠ current.Sequence) :
    isAppVersionDeployable version (some h) s =
      if blockingLabels version current s h.AllVersions = [] then some (true, "")
      else some (false, requiredCause (blockingLabels version current s h.AllVersions)) := by
  simp [isAppVersionDeployable, hstrict, hcur, hseq, List.isEmpty_iff]
/-- Where the model of `isAppVersionDeployable` stands against
`Test_isAppVersionDeployable`: it returns the expected pair on every row with
`isSemverRequired` set and on every row expected not deployable; the rows it
does not reproduce (lines 435-477 and 622-686) are rows without semver that the
test expects deployable. -/
theorem isAppVersionDeployable_against_tests :
    (∀ t ∈ appVersionDeployableTests,
      t.isSemverRequired = true ∨ t.expectedIsDeployable = false → reproduces t = true) ∧
    appVersionDeployableTests.map reproduces =
      [true, true, true, true, true, true, true, false, true, true, true, false, true,
       true, true, true, true, true, true, true, true, true, true, true, true] := by
  decide

/-- C1 (counterexample): the row of `Test_isAppVersionDeployable` at lines
435-477 (no semver, target on channel-id-1 at sequence 3, current release on
channel-id-2 at sequence 0) requires `deployable = true`, although the history
holds required releases strictly in between that are the same upstream release
as neither the target nor the current release. -/
theorem nonSemver_other_channel_row_refutes_rule4 :
    nonSemverOtherChannelTest ∈ appVersionDeployableTests ∧
    nonSemverOtherChannelTest.version.HasFailingStrictPreflights = false ∧
    ∃ h current,
      nonSemverOtherChannelTest.appVersions = some h ∧
      h.CurrentVersion = some current ∧
      nonSemverOtherChannelTest.version.Sequence ≠ current.Sequence ∧
      ¬ (nonSemverOtherChannelTest.expectedIsDeployable = true ↔
          ∀ v ∈ h.AllVersions,
            ¬ (min nonSemverOtherChannelTest.version.Sequence current.Sequence < v.Sequence ∧
              v.Sequence < max nonSemverOtherChannelTest.version.Sequence current.Sequence ∧
              v.IsRequired = true ∧
              isSameUpstreamRelease v nonSemverOtherChannelTest.version
                nonSemverOtherChannelTest.isSemverRequired = false ∧
              isSameUpstreamRelease v current
                nonSemverOtherChannelTest.isSemverRequired = false)) := by
  refine ⟨by decide, rfl, _, _, rfl, rfl, by decide, ?_⟩
  intro hiff
  have hall := hiff.mp rfl
  exact hall { Sequence := 2, ChannelID := "channel-id-1", Cursor := 3, IsRequired := true }
    (by decide) (by decide)

/-- C1 (amended): for a target without failing strict preflights and a current
release of another sequence, the result is deployable whenever no release of
the history lies strictly between the two by sequence, is required and is the
same upstream release as neither; with semver authoritative it is deployable
only then. -/
theorem deployable_of_no_blocking_release (version current : DownstreamVersion)
    (h : DownstreamVersions) (s : Bool)
    (hstrict : version.HasFailingStrictPreflights = false)
    (hcur : h.CurrentVersion = some current)
    (hseq : version.Sequence ≠ current.Sequence) :
    ((∀ v ∈ h.AllVersions,
        ¬ (min version.Sequence current.Sequence < v.Sequence ∧
          v.Sequence < max version.Sequence current.Sequence ∧
          v.IsRequired = true ∧
          isSameUpstreamRelease v version s = false ∧
          isSameUpstreamRelease v current s = false)) →
      isAppVersionDeployable version (some h) s = some (true, "")) ∧
    (s = true →
      ((isAppVersionDeployable version (some h) s).map Prod.fst = some true ↔
        ∀ v ∈ h.AllVersions,
          ¬ (min version.Sequence current.Sequence < v.Sequence ∧
            v.Sequence < max version.Sequence current.Sequence ∧
            v.IsRequired = true ∧
            isSameUpstreamRelease v version s = false ∧
            isSameUpstreamRelease v current s = false))) := by
  have hnil := blockingLabels_eq_nil_iff version current s h.AllVersions
  have hrule := isAppVersionDeployable_rule4 version current h s hstrict hcur hseq
  have hblock : (∀ v ∈ h.AllVersions, isBlocking version current s v = false) ↔
      ∀ v ∈ h.AllVersions,
        ¬ (min version.Sequence current.Sequence < v.Sequence ∧
          v.Sequence < max version.Sequence current.Sequence ∧
          v.IsRequired = true ∧
          isSameUpstreamRelease v version s = false ∧
          isSameUpstreamRelease v current s = false) := by
    constructor
    · intro hb v hv hv2
      have := (isBlocking_iff version current s v).mpr hv2
      rw [hb v hv] at this
      exact Bool.false_ne_true this
    · intro hb v hv
      cases hbl : isBlocking version current s v
      · rfl
      · exact absurd ((isBlocking_iff version current s v).mp hbl) (hb v hv)
  refine ⟨?_, ?_⟩
  · intro hno
    rw [hrule, if_pos (hnil.mpr (hblock.mpr hno))]
  · intro _
    rw [hrule, ← hblock, ← hnil]
    by_cases hl : blockingLabels version current s h.AllVersions = []
    · simp [hl]
    · simp [hl]

/-- C1 (witness): the row at lines 973-1040, semver authoritative, target at
sequence 3 on channel-id-1 over the current release at sequence 0 on
channel-id-2; the required releases in between share the target's semver, so
none blocks and the result is deployable. -/
theorem deployable_of_no_blocking_release_witness :
    isAppVersionDeployable semverSameVariantsTest.version semverSameVariantsTest.appVersions
        true = some (true, "") ∧
    (isAppVersionDeployable semverSameVariantsTest.version semverSameVariantsTest.appVersions
        true).map Prod.fst = some true :=
  ⟨(deployable_of_no_blocking_release semverSameVariantsTest.version
      { ChannelID := "channel-id-2", Cursor := 1, VersionLabel := "1.0",
        Semver := some { Major := 1 } }
      _ true rfl rfl (by decide)).1 (by decide),
   ((deployable_of_no_blocking_release semverSameVariantsTest.version
      { ChannelID := "channel-id-2", Cursor := 1, VersionLabel := "1.0",
        Semver := some { Major := 1 } }
      _ true rfl rfl (by decide)).2 rfl).mpr (by decide)⟩

/-- C9: when rule 4 is reached, the result is not deployable exactly when the
list of blocking labels is non-empty; a single label `X` gives the cause
"... version X is required and must be deployed first." and two or more labels
give "... versions X1, ..., Xn are required and must be deployed first." with
the labels joined by `", "`. -/
theorem requiredCause_singular_plural (version current : DownstreamVersion)
    (h : DownstreamVersions) (s : Bool)
    (hstrict : version.HasFailingStrictPreflights = false)
    (hcur : h.CurrentVersion = some current)
    (hseq : version.Sequence ≠ current.Sequence) :
    ((isAppVersionDeployable version (some h) s).map Prod.fst = some false ↔
      blockingLabels version current s h.AllVersions ≠ []) ∧
    (∀ X, blockingLabels version current s h.AllVersions = [X] →
      isAppVersionDeployable version (some h) s =
        some (false, "This version cannot be deployed because version " ++ X ++
          " is required and must be deployed first.")) ∧
    (2 ≤ (blockingLabels version current s h.AllVersions).length →
      isAppVersionDeployable version (some h) s =
        some (false, "This version cannot be deployed because versions " ++
          ", ".intercalate (blockingLabels version current s h.AllVersions) ++
          " are required and must be deployed first.")) := by
  have hrule := isAppVersionDeployable_rule4 version current h s hstrict hcur hseq
  refine ⟨?_, ?_, ?_⟩
  · rw [hrule]
    by_cases hl : blockingLabels version current s h.AllVersions = []
    · simp [hl]
    · simp [hl]
  · intro X hX
    rw [hrule, hX]
    simp [requiredCause, String.intercalate, String.intercalate.go]
  · intro hlen
    have hne : blockingLabels version current s h.AllVersions ≠ [] := by
      intro hnil
      rw [hnil] at hlen
      simp at hlen
    have hne1 : (blockingLabels version current s h.AllVersions).length ≠ 1 := by omega
    rw [hrule, if_neg hne]
    simp [requiredCause, hne1]

/-- C9 (witness): the row at lines 566-621, target at sequence 4 over the
current release at sequence 1 with required releases labelled 3.0 and 4.0 in
between. -/
theorem requiredCause_singular_plural_witness :
    isAppVersionDeployable nonSemverRequiredGapTest.version
        nonSemverRequiredGapTest.appVersions false =
      some (false,
        "This version cannot be deployed because versions 3.0, 4.0 are required and must be deployed first.") :=
  (requiredCause_singular_plural nonSemverRequiredGapTest.version
    { Sequence := 1, ChannelID := "channel-id-1", Cursor := 2, VersionLabel := "2.0",
      IsRequired := true }
    _ false rfl rfl (by decide)).2.2 (by decide)


/-- The blocking releases are listed by non-decreasing sequence. -/
theorem blockingVersions_sorted_le (version current : DownstreamVersion) (s : Bool)
    (all : List DownstreamVersion) :
    (blockingVersions version current s all).Sorted (fun a b => a.Sequence ≤ b.Sequence) := by
  haveI : IsTotal DownstreamVersion (fun a b => a.Sequence ≤ b.Sequence) :=
    ⟨fun a b => le_total a.Sequence b.Sequence⟩
  haveI : IsTrans DownstreamVersion (fun a b => a.Sequence ≤ b.Sequence) :=
    ⟨fun _ _ _ hab hbc => le_trans hab hbc⟩
  exact List.sorted_insertionSort _ _

/-- The blocking releases are exactly the releases of the history that block. -/
theorem blockingVersions_perm_filter (version current : DownstreamVersion) (s : Bool)
    (all : List DownstreamVersion) :
    (blockingVersions version current s all).Perm
      (all.filter (isBlocking version current s)) :=
  List.perm_insertionSort _ _

/-- With unique sequences in the history, the blocking releases are listed by
strictly increasing sequence. -/
theorem blockingVersions_sorted_lt (version current : DownstreamVersion) (s : Bool)
    (all : List DownstreamVersion) (hnodup : (all.map (·.Sequence)).Nodup) :
    (blockingVersions version current s all).Sorted (fun a b => a.Sequence < b.Sequence) := by
  have hle := blockingVersions_sorted_le version current s all
  have hperm := blockingVersions_perm_filter version current s all
  have hsub : ((all.filter (isBlocking version current s)).map (·.Sequence)).Sublist
      (all.map (·.Sequence)) := (List.filter_sublist all).map _
  have hnd : ((blockingVersions version current s all).map (·.Sequence)).Nodup :=
    ((hperm.map _).nodup_iff).mpr (hnodup.sublist hsub)
  have hle2 : ((blockingVersions version current s all).map (·.Sequence)).Sorted (· ≤ ·) :=
    List.pairwise_map.mpr hle
  have hlt := List.Sorted.lt_of_le hle2 hnd
  exact List.pairwise_map.mp hlt

/-- With unique sequences, the list of blocking releases does not depend on the
order in which the history stores its releases. -/
theorem blockingVersions_eq_of_perm (version current : DownstreamVersion) (s : Bool)
    (all all2 : List DownstreamVersion) (hnodup : (all.map (·.Sequence)).Nodup)
    (hperm : all2.Perm all) :
    blockingVersions version current s all2 = blockingVersions version current s all := by
  haveI : IsAntisymm DownstreamVersion (fun a b => a.Sequence < b.Sequence) :=
    ⟨fun _ _ hab hba => absurd hab (not_lt.mpr (le_of_lt hba))⟩
  have hnodup2 : (all2.map (·.Sequence)).Nodup := ((hperm.map _).nodup_iff).mpr hnodup
  have h1 := blockingVersions_sorted_lt version current s all hnodup
  have h2 := blockingVersions_sorted_lt version current s all2 hnodup2
  have hp : (blockingVersions version current s all2).Perm
      (blockingVersions version current s all) :=
    ((blockingVersions_perm_filter version current s all2).trans
      (hperm.filter _)).trans (blockingVersions_perm_filter version current s all).symm
  exact List.eq_of_perm_of_sorted hp h2 h1

/-- C10: with unique sequences in the history, the blocking releases are listed
by strictly increasing sequence, the cause names their labels in that order
(deduplicated), and storing the history in another order changes nothing. -/
theorem blocking_labels_ascending (version current : DownstreamVersion)
    (h : DownstreamVersions) (s : Bool) (all2 : List DownstreamVersion)
    (hstrict : version.HasFailingStrictPreflights = false)
    (hcur : h.CurrentVersion = some current)
    (hseq : version.Sequence ≠ current.Sequence)
    (hnodup : (h.AllVersions.map (·.Sequence)).Nodup)
    (hperm : all2.Perm h.AllVersions) :
    (blockingVersions version current s h.AllVersions).Sorted
      (fun a b => a.Sequence < b.Sequence) ∧
    (blockingVersions version current s h.AllVersions).Perm
      (h.AllVersions.filter (isBlocking version current s)) ∧
    (blockingVersions version current s h.AllVersions ≠ [] →
      isAppVersionDeployable version (some h) s =
        some (false, requiredCause (dedupLabels
          ((blockingVersions version current s h.AllVersions).map (·.VersionLabel))))) ∧
    isAppVersionDeployable version (some { h with AllVersions := all2 }) s =
      isAppVersionDeployable version (some h) s := by
  refine ⟨blockingVersions_sorted_lt version current s _ hnodup,
    blockingVersions_perm_filter version current s _, ?_, ?_⟩
  · intro hne
    rw [isAppVersionDeployable_rule4 version current h s hstrict hcur hseq]
    have hl : blockingLabels version current s h.AllVersions ≠ [] := by
      unfold blockingLabels
      rw [Ne, dedupLabels_eq_nil_iff, List.map_eq_nil_iff]
      exact hne
    rw [if_neg hl]
    rfl
  · rw [isAppVersionDeployable_rule4 version current h s hstrict hcur hseq,
      isAppVersionDeployable_rule4 version current { h with AllVersions := all2 } s hstrict
        hcur hseq]
    simp only [blockingLabels]
    rw [blockingVersions_eq_of_perm version current s h.AllVersions all2 hnodup hperm]

/-- C10 (witness): the row at lines 1325-1415, blockers at sequences 2, 3, 4
labelled 3.0, 3.1, 4.0; the history stored oldest first gives the same cause
as the history stored newest first. -/
theorem blocking_labels_ascending_witness :
    isAppVersionDeployable semverThreeBlockersTest.version
        (semverThreeBlockersTest.appVersions.map fun h =>
          { h with AllVersions := h.AllVersions.reverse }) true =
      some (false,
        "This version cannot be deployed because versions 3.0, 3.1, 4.0 are required and must be deployed first.") ∧
    isAppVersionDeployable semverThreeBlockersTest.version
        semverThreeBlockersTest.appVersions true =
      some (false,
        "This version cannot be deployed because versions 3.0, 3.1, 4.0 are required and must be deployed first.") := by
  have w := blocking_labels_ascending semverThreeBlockersTest.version
    { Sequence := 1, ChannelID := "channel-id-1", Cursor := 2, VersionLabel := "2.0",
      Semver := some { Major := 2 }, IsRequired := true }
    ((semverThreeBlockersTest.appVersions).getD { }) true
    ((semverThreeBlockersTest.appVersions).getD { }).AllVersions.reverse
    rfl rfl (by decide) (by decide) (List.reverse_perm _)
  have h2 := w.2.2.1 (by decide)
  exact ⟨w.2.2.2.trans h2, h2⟩


/-! ## Theorems: validation gate and deployment committer -/

/-- Without writes of other sessions the store stays as it was. -/
theorem evolve_of_no_interference {P R : Type} (env : Env P R)
    (hquiet : ∀ k t, env.interfere k t = t) (n : Nat) (s : Store) : evolve env n s = s := by
  induction n with
  | zero => rfl
  | succ n ih => rw [evolve, hquiet, ih]

/-- The poll only reads: it ends on the store that other sessions produced by
its last read, and it ends without error only on a read that saw a status
other than `pending_preflight`. -/
theorem pollStatus_spec {P R : Type} (env : Env P R) (appID : String) (sequence : Int)
    (s0 : Store) (fuel : Nat) :
    ∀ (n : Nat) (s1 : Store) (m : Nat) (ok : Bool),
      pollStatus env appID sequence fuel n (evolve env n s0) = some (s1, m, ok) →
      n < m ∧ s1 = evolve env m s0 ∧
        (ok = true →
          ∃ st, getStatus env (m - 1) s1 appID sequence = some st ∧
            st ≠ VersionPendingPreflight) ∧
        (ok = false → getStatus env (m - 1) s1 appID sequence = none) := by
  induction fuel with
  | zero =>
    intro n s1 m ok h
    simp [pollStatus] at h
  | succ fuel ih =>
    intro n s1 m ok h
    rw [pollStatus] at h
    change (match getStatus env n (evolve env (n + 1) s0) appID sequence with
      | none => some (evolve env (n + 1) s0, n + 1, false)
      | some versionStatus =>
        if versionStatus ≠ VersionPendingPreflight then some (evolve env (n + 1) s0, n + 1, true)
        else pollStatus env appID sequence fuel (n + 1) (evolve env (n + 1) s0)) =
      some (s1, m, ok) at h
    cases hst : getStatus env n (evolve env (n + 1) s0) appID sequence with
    | none =>
      rw [hst] at h
      dsimp only at h
      simp only [Option.some.injEq, Prod.mk.injEq] at h
      obtain ⟨h1, h2, h3⟩ := h
      subst h1 h2 h3
      refine ⟨Nat.lt_succ_self n, rfl, by simp, ?_⟩
      intro _
      simpa using hst
    | some st =>
      rw [hst] at h
      dsimp only at h
      by_cases hp : st ≠ VersionPendingPreflight
      · rw [if_pos hp] at h
        simp only [Option.some.injEq, Prod.mk.injEq] at h
        obtain ⟨h1, h2, h3⟩ := h
        subst h1 h2 h3
        refine ⟨Nat.lt_succ_self n, rfl, ?_, by simp⟩
        intro _
        exact ⟨st, by simpa using hst, hp⟩
      · rw [if_neg hp] at h
        obtain ⟨hlt, hrest⟩ := ih (n + 1) s1 m ok h
        exact ⟨Nat.lt_of_succ_lt hlt, hrest⟩

/-- The gate only reads: whatever it returns, the store it leaves is the one
other sessions produced. -/
theorem isBlockedDueToStricPreFlights_store {P R : Type} (env : Env P R) (fuel : Nat)
    (s : Store) (appID : String) (sequence : Int) (db : Store) (r : Except GateError Bool)
    (h : isBlockedDueToStricPreFlights env fuel s appID sequence = some (db, r)) :
    ∃ n, db = evolve env n s := by
  unfold isBlockedDueToStricPreFlights at h
  split at h
  · simp only [Option.some.injEq, Prod.mk.injEq] at h
    exact ⟨0, h.1.symm⟩
  · split at h
    · simp only [Option.some.injEq, Prod.mk.injEq] at h
      exact ⟨0, h.1.symm⟩
    · split at h
      · simp only [Option.some.injEq, Prod.mk.injEq] at h
        exact ⟨0, h.1.symm⟩
      · split at h
        · split at h
          · exact absurd h (by simp)
          · rename_i s1 m hpoll
            have hspec := pollStatus_spec env appID sequence s fuel 0 s1 m false hpoll
            simp only [Option.some.injEq, Prod.mk.injEq] at h
            exact ⟨m, by rw [← h.1]; exact hspec.2.1⟩
          · rename_i s1 m hpoll
            have hspec := pollStatus_spec env appID sequence s fuel 0 s1 m true hpoll
            have hs2 : env.interfere m s1 = evolve env (m + 1) s := by
              rw [hspec.2.1]; rfl
            dsimp only at h
            rw [hs2] at h
            split at h
            · simp only [Option.some.injEq, Prod.mk.injEq] at h
              exact ⟨m + 1, h.1.symm⟩
            · split at h
              · simp only [Option.some.injEq, Prod.mk.injEq] at h
                exact ⟨m + 1, h.1.symm⟩
              · simp only [Option.some.injEq, Prod.mk.injEq] at h
                exact ⟨m + 1, h.1.symm⟩
        · simp only [Option.some.injEq, Prod.mk.injEq] at h
          exact ⟨0, h.1.symm⟩

/-- C8: when the gate returns without error, `blocked` is the conjunction of
"the spec read at entry declares strict preflights" and "the latest stored
result shows a failing strict preflight". If the gate did not poll, the latest
result is the one read at entry and the store is untouched; if it polled, the
poll ended on a status other than `pending_preflight` and the latest result is
the one re-read from the store after that. -/
theorem isBlockedDueToStricPreFlights_verdict {P R : Type} (env : Env P R) (fuel : Nat)
    (s : Store) (appID : String) (sequence : Int) (db : Store) (blocked : Bool)
    (h : isBlockedDueToStricPreFlights env fuel s appID sequence = some (db, .ok blocked)) :
    ∃ row strict,
      preflightQuery s appID sequence = some row ∧
      hasStrictPreflights env row = some strict ∧
      ((mustPoll strict row = false ∧ db = s ∧
          ∃ failing, strictPreflightFailing env row = some failing ∧
            blocked = (strict && failing)) ∨
       (mustPoll strict row = true ∧
          ∃ m st latest failing,
            0 < m ∧ db = evolve env (m + 1) s ∧
            getStatus env (m - 1) (evolve env m s) appID sequence = some st ∧
            st ≠ VersionPendingPreflight ∧
            preflightQuery db appID sequence = some latest ∧
            strictPreflightFailing env latest = some failing ∧
            blocked = (strict && failing))) := by
  have hverdict : ∀ (strict : Bool) (row : PreflightScan) (b : Bool),
      gateVerdict env strict row = .ok b →
      ∃ failing, strictPreflightFailing env row = some failing ∧ b = (strict && failing) := by
    intro strict row b hb
    unfold gateVerdict at hb
    cases hf : strictPreflightFailing env row with
    | none => rw [hf] at hb; exact absurd hb (by simp)
    | some failing =>
      rw [hf] at hb
      simp only [Except.ok.injEq] at hb
      exact ⟨failing, rfl, hb.symm⟩
  unfold isBlockedDueToStricPreFlights at h
  split at h
  · simp at h
  · split at h
    · simp at h
    · rename_i row hrow
      split at h
      · simp at h
      · rename_i strict hstrict
        refine ⟨row, strict, hrow, hstrict, ?_⟩
        split at h
        · rename_i hmp
          right
          refine ⟨hmp, ?_⟩
          split at h
          · exact absurd h (by simp)
          · simp at h
          · rename_i s1 m hpoll
            have hspec := pollStatus_spec env appID sequence s fuel 0 s1 m true hpoll
            have hs2 : env.interfere m s1 = evolve env (m + 1) s := by
              rw [hspec.2.1]; rfl
            obtain ⟨st, hst, hne⟩ := hspec.2.2.1 rfl
            rw [hspec.2.1] at hst
            dsimp only at h
            rw [hs2] at h
            split at h
            · simp at h
            · split at h
              · simp at h
              · rename_i latest hlatest
                simp only [Option.some.injEq, Prod.mk.injEq] at h
                obtain ⟨hdb, hv⟩ := h
                obtain ⟨failing, hfail, hb⟩ := hverdict strict latest blocked hv
                subst hdb
                exact ⟨m, st, latest, failing, hspec.1, rfl, hst, hne, hlatest, hfail, hb⟩
        · rename_i hmp
          left
          simp only [Option.some.injEq, Prod.mk.injEq] at h
          obtain ⟨hdb, hv⟩ := h
          obtain ⟨failing, hfail, hb⟩ := hverdict strict row blocked hv
          exact ⟨by simpa using hmp, hdb.symm, failing, hfail, hb⟩

/-- After both updates every downstream row of the application points to the
sequence, and the rows keep their keys. -/
theorem updates_set_pointer (db : Store) (sequence : Int) (appID : String) (now : Nat) :
    (∀ d ∈ (updateVersionStatus (updateCurrentSequence db sequence appID) sequence appID
        now).app_downstream, d.app_id = appID → d.current_sequence = some sequence) ∧
    (updateVersionStatus (updateCurrentSequence db sequence appID) sequence appID
        now).app_downstream.map (·.app_id) = db.app_downstream.map (·.app_id) := by
  constructor
  · intro d hd happ
    simp only [updateVersionStatus, updateCurrentSequence, List.mem_map] at hd
    obtain ⟨d0, _, hd0⟩ := hd
    by_cases h0 : d0.app_id = appID
    · rw [if_pos h0] at hd0
      rw [← hd0]
    · rw [if_neg h0] at hd0
      rw [← hd0] at happ
      exact absurd happ h0
  · simp only [updateVersionStatus, updateCurrentSequence, List.map_map]
    apply List.map_congr_left
    intro d _
    by_cases h0 : d.app_id = appID
    · simp [h0]
    · simp [h0]

/-- After both updates every release row of the application with the sequence
is deployed and stamped, and the rows keep their keys. -/
theorem updates_set_status (db : Store) (sequence : Int) (appID : String) (now : Nat) :
    (∀ r ∈ (updateVersionStatus (updateCurrentSequence db sequence appID) sequence appID
        now).app_downstream_version, r.app_id = appID → r.sequence = sequence →
        r.status = some "deployed" ∧ r.applied_at = some now) ∧
    (updateVersionStatus (updateCurrentSequence db sequence appID) sequence appID
        now).app_downstream_version.map (fun r => (r.app_id, r.sequence)) =
      db.app_downstream_version.map (fun r => (r.app_id, r.sequence)) := by
  constructor
  · intro r hr happ hseq
    simp only [updateVersionStatus, updateCurrentSequence, List.mem_map] at hr
    obtain ⟨r0, _, hr0⟩ := hr
    by_cases h0 : r0.sequence = sequence ∧ r0.app_id = appID
    · rw [if_pos h0] at hr0
      rw [← hr0]
      exact ⟨rfl, rfl⟩
    · rw [if_neg h0] at hr0
      rw [← hr0] at happ hseq
      exact absurd ⟨hseq, happ⟩ h0
  · simp only [updateVersionStatus, updateCurrentSequence, List.map_map]
    apply List.map_congr_left
    intro r _
    by_cases h0 : r.sequence = sequence ∧ r.app_id = appID
    · simp [h0]
    · simp [h0]

/-- Every return of `DeployVersion`: an error leaves the store as other sessions
produced it, a nil error leaves that store with both updates applied. -/
theorem DeployVersion_outcome {P R : Type} (env : Env P R) (fuel : Nat) (s : Store)
    (appID : String) (sequence : Int) (s2 : Store) (r : Option DeployError)
    (h : DeployVersion env fuel s appID sequence = some (s2, r)) :
    ∃ n, (r ≠ none → s2 = evolve env n s) ∧
      (r = none →
        s2 = updateVersionStatus (updateCurrentSequence (evolve env n s) sequence appID)
          sequence appID env.now) := by
  unfold DeployVersion at h
  split at h
  · exact absurd h (by simp)
  · rename_i db err hgate
    obtain ⟨n, hn⟩ := isBlockedDueToStricPreFlights_store env fuel s appID sequence db _ hgate
    simp only [Option.some.injEq, Prod.mk.injEq] at h
    refine ⟨n, fun _ => by rw [← h.1, hn], fun hr => ?_⟩
    rw [hr] at h
    exact absurd h.2 (by simp)
  · rename_i db hgate
    obtain ⟨n, hn⟩ := isBlockedDueToStricPreFlights_store env fuel s appID sequence db _ hgate
    simp only [Option.some.injEq, Prod.mk.injEq] at h
    refine ⟨n, fun _ => by rw [← h.1, hn], fun hr => ?_⟩
    rw [hr] at h
    exact absurd h.2 (by simp)
  · rename_i db hgate
    obtain ⟨n, hn⟩ := isBlockedDueToStricPreFlights_store env fuel s appID sequence db _ hgate
    refine ⟨n, ?_⟩
    split at h
    · simp only [Option.some.injEq, Prod.mk.injEq] at h
      refine ⟨fun _ => by rw [← h.1, hn], fun hr => ?_⟩
      rw [hr] at h
      exact absurd h.2 (by simp)
    · dsimp only at h
      split at h
      · simp only [Option.some.injEq, Prod.mk.injEq] at h
        refine ⟨fun _ => by rw [← h.1, hn], fun hr => ?_⟩
        rw [hr] at h
        exact absurd h.2 (by simp)
      · split at h
        · simp only [Option.some.injEq, Prod.mk.injEq] at h
          refine ⟨fun _ => by rw [← h.1, hn], fun hr => ?_⟩
          rw [hr] at h
          exact absurd h.2 (by simp)
        · split at h
          · simp only [Option.some.injEq, Prod.mk.injEq] at h
            refine ⟨fun _ => by rw [← h.1, hn], fun hr => ?_⟩
            rw [hr] at h
            exact absurd h.2 (by simp)
          · simp only [Option.some.injEq, Prod.mk.injEq] at h
            refine ⟨fun hr => absurd h.2.symm hr, fun _ => by rw [← h.1, hn]⟩


/-- C8 (witness): release 1 is pending with no stored result at entry; the
preflight run of another session ends during the poll with a failing result;
the gate reports `blocked = true`, from the result re-read after the poll. -/
theorem isBlockedDueToStricPreFlights_verdict_witness :
    isBlockedDueToStricPreFlights (waitingEnv "fail" {}) 5 pendingStore "app" 1 =
      some (finishPreflight "fail" pendingStore, .ok true) ∧
    ∃ row strict,
      preflightQuery pendingStore "app" 1 = some row ∧
      hasStrictPreflights (waitingEnv "fail" {}) row = some strict ∧
      ((mustPoll strict row = false ∧ finishPreflight "fail" pendingStore = pendingStore ∧
          ∃ failing, strictPreflightFailing (waitingEnv "fail" {}) row = some failing ∧
            true = (strict && failing)) ∨
       (mustPoll strict row = true ∧
          ∃ m st latest failing,
            0 < m ∧
            finishPreflight "fail" pendingStore =
              evolve (waitingEnv "fail" {}) (m + 1) pendingStore ∧
            getStatus (waitingEnv "fail" {}) (m - 1)
              (evolve (waitingEnv "fail" {}) m pendingStore) "app" 1 = some st ∧
            st ≠ VersionPendingPreflight ∧
            preflightQuery (finishPreflight "fail" pendingStore) "app" 1 = some latest ∧
            strictPreflightFailing (waitingEnv "fail" {}) latest = some failing ∧
            true = (strict && failing))) :=
  ⟨rfl, isBlockedDueToStricPreFlights_verdict (waitingEnv "fail" {}) 5 pendingStore "app" 1
    (finishPreflight "fail" pendingStore) true rfl⟩


/-- C6: when `DeployVersion` returns nil, every downstream row of the
application points to the sequence and every release row of the application
with that sequence has status "deployed" and the activation time of the call;
no row appeared or vanished, so a pointer and a release that existed when the
transaction ran are the ones that now show it. -/
theorem DeployVersion_success_deploys {P R : Type} (env : Env P R) (fuel : Nat) (s : Store)
    (appID : String) (sequence : Int) (s2 : Store)
    (h : DeployVersion env fuel s appID sequence = some (s2, none)) :
    (∀ d ∈ s2.app_downstream, d.app_id = appID → d.current_sequence = some sequence) ∧
    (∀ r ∈ s2.app_downstream_version, r.app_id = appID → r.sequence = sequence →
      r.status = some "deployed" ∧ r.applied_at = some env.now) ∧
    ∃ n,
      s2.app_downstream.map (·.app_id) = (evolve env n s).app_downstream.map (·.app_id) ∧
      s2.app_downstream_version.map (fun r => (r.app_id, r.sequence)) =
        (evolve env n s).app_downstream_version.map (fun r => (r.app_id, r.sequence)) := by
  obtain ⟨n, _, hok⟩ := DeployVersion_outcome env fuel s appID sequence s2 none h
  have hs2 := hok rfl
  have hp := updates_set_pointer (evolve env n s) sequence appID env.now
  have hst := updates_set_status (evolve env n s) sequence appID env.now
  rw [← hs2] at hp hst
  exact ⟨hp.1, hst.1, n, hp.2, hst.2⟩

/-- C6 (witness): on the worked store, with the preflight run ending with a
passing result during the poll, deploying release 1 returns nil, moves the
pointer from 0 to 1 and marks release 1 deployed. -/
theorem DeployVersion_success_deploys_witness :
    DeployVersion (waitingEnv "pass" {}) 5 pendingStore "app" 1 =
      some ({ pendingStore with
        app_downstream_version :=
          [{ app_id := "app", sequence := 1, parent_sequence := 1, status := some "deployed",
             applied_at := some 1700000000, preflight_result := some "pass" },
           { app_id := "app", sequence := 0, parent_sequence := 0, status := some "deployed" }],
        app_downstream := [{ app_id := "app", cluster_id := "this-cluster",
                             current_sequence := some 1 }] }, none) ∧
    (∀ d ∈ [({ app_id := "app", cluster_id := "this-cluster",
               current_sequence := some 1 } : AppDownstreamRow)],
      d.app_id = "app" → d.current_sequence = some 1) :=
  ⟨rfl, (DeployVersion_success_deploys (waitingEnv "pass" {}) 5 pendingStore "app" 1 _ rfl).1⟩

/-- C7: the commit is all or nothing. When `DeployVersion` returns an error,
whichever step failed, the store is the one other sessions produced, and the
pre-call store itself when no other session wrote; when it returns nil, that
store has both updates applied. No return leaves one update without the other. -/
theorem DeployVersion_atomic {P R : Type} (env : Env P R) (fuel : Nat) (s : Store)
    (appID : String) (sequence : Int) (s2 : Store) (r : Option DeployError)
    (h : DeployVersion env fuel s appID sequence = some (s2, r)) :
    (r ≠ none →
      (∃ n, s2 = evolve env n s) ∧ ((∀ k t, env.interfere k t = t) → s2 = s)) ∧
    (r = none →
      ∃ n, s2 = updateVersionStatus (updateCurrentSequence (evolve env n s) sequence appID)
        sequence appID env.now) := by
  obtain ⟨n, herr, hok⟩ := DeployVersion_outcome env fuel s appID sequence s2 r h
  refine ⟨fun hr => ⟨⟨n, herr hr⟩, fun hquiet => ?_⟩, fun hr => ⟨n, hok hr⟩⟩
  rw [herr hr, evolve_of_no_interference env hquiet]

/-- C7 (witness): on the worked store after the preflight run has ended with a
passing result, with no other session writing, a failing `Commit` returns
"failed to commit" and leaves pointer, statuses and activation times as they
were. -/
theorem DeployVersion_atomic_witness :
    DeployVersion commitFailsEnv 1 (finishPreflight "pass" pendingStore) "app" 1 =
      some (finishPreflight "pass" pendingStore, some DeployError.commit) ∧
    (∃ n, finishPreflight "pass" pendingStore =
        evolve commitFailsEnv n (finishPreflight "pass" pendingStore)) ∧
    ((∀ k t, commitFailsEnv.interfere k t = t) →
      finishPreflight "pass" pendingStore = finishPreflight "pass" pendingStore) :=
  ⟨rfl, (DeployVersion_atomic commitFailsEnv 1 (finishPreflight "pass" pendingStore) "app" 1
    (finishPreflight "pass" pendingStore) (some DeployError.commit) rfl).1 (by simp)⟩


/-! ## Theorems: algebra of the release identity comparator -/

/-- When the comparator answers true: channel and cursor agree, or the flag is
set and both semvers are present and equal. -/
theorem isSameUpstreamRelease_eq_true_iff (a b : DownstreamVersion) (s : Bool) :
    isSameUpstreamRelease a b s = true ↔
      (a.ChannelID = b.ChannelID ∧ a.Cursor = b.Cursor) ∨
      (s = true ∧ ∃ x, a.Semver = some x ∧ b.Semver = some x) := by
  unfold isSameUpstreamRelease
  rw [Bool.or_eq_true, Bool.and_eq_true, Bool.and_eq_true, semverClause_iff]
  simp

/-- C14: `isSameUpstreamRelease` is symmetric in its two releases, for both
values of the flag and whether or not either release carries a semver. -/
theorem isSameUpstreamRelease_symm (a b : DownstreamVersion) (s : Bool) :
    isSameUpstreamRelease a b s = isSameUpstreamRelease b a s := by
  rw [Bool.eq_iff_iff, isSameUpstreamRelease_eq_true_iff a b s,
    isSameUpstreamRelease_eq_true_iff b a s]
  constructor
  · rintro (⟨h1, h2⟩ | ⟨hs, x, ha, hb⟩)
    · exact Or.inl ⟨h1.symm, h2.symm⟩
    · exact Or.inr ⟨hs, x, hb, ha⟩
  · rintro (⟨h1, h2⟩ | ⟨hs, x, ha, hb⟩)
    · exact Or.inl ⟨h1.symm, h2.symm⟩
    · exact Or.inr ⟨hs, x, hb, ha⟩

/-- C15: `isSameUpstreamRelease` is reflexive: a release is the same upstream
release as itself for both values of the flag, with or without a semver. -/
theorem isSameUpstreamRelease_refl (a : DownstreamVersion) (s : Bool) :
    isSameUpstreamRelease a a s = true :=
  (isSameUpstreamRelease_eq_true_iff a a s).mpr (Or.inl ⟨rfl, rfl⟩)

/-- C16: `isSameUpstreamRelease` is not transitive when semver is authoritative:
`a` and `b` agree on channel and cursor, `b` and `c` agree on semver, `a` and
`c` agree on neither. With the flag off it is transitive. -/
theorem isSameUpstreamRelease_not_transitive :
    (∃ a b c : DownstreamVersion,
      isSameUpstreamRelease a b true = true ∧ isSameUpstreamRelease b c true = true ∧
        isSameUpstreamRelease a c true = false) ∧
    (∀ a b c : DownstreamVersion,
      isSameUpstreamRelease a b false = true → isSameUpstreamRelease b c false = true →
        isSameUpstreamRelease a c false = true) := by
  constructor
  · exact ⟨{ ChannelID := "channel-id-1", Cursor := 2, Semver := some { Major := 3 } },
      { ChannelID := "channel-id-1", Cursor := 2, Semver := some { Major := 4 } },
      { ChannelID := "channel-id-2", Cursor := 2, Semver := some { Major := 4 } },
      by decide, by decide, by decide⟩
  · intro a b c hab hbc
    rw [isSameUpstreamRelease_eq_true_iff a b false] at hab
    rw [isSameUpstreamRelease_eq_true_iff b c false] at hbc
    rw [isSameUpstreamRelease_eq_true_iff a c false]
    rcases hab with ⟨h1, h2⟩ | ⟨hs, _⟩
    · rcases hbc with ⟨h3, h4⟩ | ⟨hs, _⟩
      · exact Or.inl ⟨h1.trans h3, h2.trans h4⟩
      · exact absurd hs (by simp)
    · exact absurd hs (by simp)

/-- C16 (witness): with the flag off, channel-id-1 at cursor 2 chains through
three releases whatever their semvers are. -/
theorem isSameUpstreamRelease_not_transitive_witness :
    isSameUpstreamRelease
      { ChannelID := "channel-id-1", Cursor := 2, Semver := some { Major := 3 } }
      { ChannelID := "channel-id-1", Cursor := 2 } false = true :=
  isSameUpstreamRelease_not_transitive.2
    { ChannelID := "channel-id-1", Cursor := 2, Semver := some { Major := 3 } }
    { ChannelID := "channel-id-1", Cursor := 2, Semver := some { Major := 4 } }
    { ChannelID := "channel-id-1", Cursor := 2 } (by decide) (by decide)


/-! ## Theorems: deduplication of the blocking labels -/

theorem mem_dedupLabels (l : List String) (y : String) : y ∈ dedupLabels l ↔ y ∈ l := by
  induction l with
  | nil => simp [dedupLabels]
  | cons x xs ih =>
    simp only [dedupLabels, List.mem_cons, List.mem_filter, ih, decide_eq_true_eq]
    constructor
    · rintro (h | ⟨h, _⟩)
      · exact Or.inl h
      · exact Or.inr h
    · intro h
      by_cases hy : y = x
      · exact Or.inl hy
      · rcases h with h | h
        · exact absurd h hy
        · exact Or.inr ⟨h, hy⟩

theorem nodup_dedupLabels (l : List String) : (dedupLabels l).Nodup := by
  induction l with
  | nil => simp [dedupLabels]
  | cons x xs ih =>
    simp only [dedupLabels, List.nodup_cons, List.mem_filter, decide_eq_true_eq]
    exact ⟨fun h => h.2 rfl, ih.filter _⟩

/-- Deduplication works left to right: the labels of a later part of the list
are kept only when the earlier part does not hold them already. -/
theorem dedupLabels_append (l1 l2 : List String) :
    dedupLabels (l1 ++ l2) =
      dedupLabels l1 ++ (dedupLabels l2).filter (fun y => decide (y ∉ l1)) := by
  induction l1 with
  | nil => simp [dedupLabels]
  | cons x xs ih =>
    have hstep : dedupLabels (x :: (xs ++ l2)) =
        x :: (dedupLabels (xs ++ l2)).filter (fun y => decide (y ≠ x)) := rfl
    have hhead : dedupLabels (x :: xs) =
        x :: (dedupLabels xs).filter (fun y => decide (y ≠ x)) := rfl
    rw [List.cons_append, hstep, hhead, ih, List.filter_append, List.filter_filter,
      List.cons_append]
    congr 2
    apply List.filter_congr
    intro y _
    simp only [List.mem_cons, not_or, Bool.decide_and]

/-- A list of labels that are all `X` deduplicates to the single label `X`. -/
theorem dedupLabels_eq_singleton (l : List String) (X : String) (hne : l ≠ [])
    (hall : ∀ y ∈ l, y = X) : dedupLabels l = [X] := by
  cases l with
  | nil => exact absurd rfl hne
  | cons x xs =>
    have hx : x = X := hall x (List.mem_cons_self x xs)
    subst hx
    simp only [dedupLabels, List.cons.injEq, true_and, List.filter_eq_nil_iff,
      decide_eq_true_eq, not_not]
    intro y hy
    exact hall y (List.mem_cons_of_mem _ ((mem_dedupLabels xs y).mp hy))

/-- C11: the labels named in the cause are deduplicated by `VersionLabel`. No
label is listed twice; the labels listed are exactly the labels of the blocking
releases; the label of a blocking release that is the lowest-sequence one with
that label stands right after the (deduplicated) labels of the blocking
releases below it; and when all blocking releases carry one label `X` the
cause is the singular "... version X is required ...". -/
theorem blocking_labels_deduplicated (version current : DownstreamVersion)
    (h : DownstreamVersions) (s : Bool)
    (hstrict : version.HasFailingStrictPreflights = false)
    (hcur : h.CurrentVersion = some current)
    (hseq : version.Sequence ≠ current.Sequence) :
    (blockingLabels version current s h.AllVersions).Nodup ∧
    (∀ l, l ∈ blockingLabels version current s h.AllVersions ↔
      ∃ v ∈ h.AllVersions, isBlocking version current s v = true ∧ v.VersionLabel = l) ∧
    (∀ pre v post, blockingVersions version current s h.AllVersions = pre ++ v :: post →
      (∀ u ∈ pre, u.VersionLabel ≠ v.VersionLabel) →
      ∃ rest, blockingLabels version current s h.AllVersions =
        dedupLabels (pre.map (·.VersionLabel)) ++ v.VersionLabel :: rest) ∧
    (∀ X, (∃ v ∈ h.AllVersions, isBlocking version current s v = true) →
      (∀ v ∈ h.AllVersions, isBlocking version current s v = true → v.VersionLabel = X) →
      isAppVersionDeployable version (some h) s =
        some (false, "This version cannot be deployed because version " ++ X ++
          " is required and must be deployed first.")) := by
  have hmem : ∀ v, v ∈ blockingVersions version current s h.AllVersions ↔
      v ∈ h.AllVersions ∧ isBlocking version current s v = true := by
    intro v
    rw [(blockingVersions_perm_filter version current s h.AllVersions).mem_iff,
      List.mem_filter]
  refine ⟨nodup_dedupLabels _, ?_, ?_, ?_⟩
  · intro l
    unfold blockingLabels
    rw [mem_dedupLabels, List.mem_map]
    constructor
    · rintro ⟨v, hv, hl⟩
      exact ⟨v, ((hmem v).mp hv).1, ((hmem v).mp hv).2, hl⟩
    · rintro ⟨v, hv, hb, hl⟩
      exact ⟨v, (hmem v).mpr ⟨hv, hb⟩, hl⟩
  · intro pre v post hsplit hfirst
    unfold blockingLabels
    rw [hsplit, List.map_append, List.map_cons, dedupLabels_append]
    have hhead : dedupLabels (v.VersionLabel :: post.map (·.VersionLabel)) =
        v.VersionLabel :: (dedupLabels (post.map (·.VersionLabel))).filter
          (fun y => decide (y ≠ v.VersionLabel)) := rfl
    have hnot : decide (v.VersionLabel ∉ pre.map (·.VersionLabel)) = true := by
      rw [decide_eq_true_eq, List.mem_map]
      rintro ⟨u, hu, hlu⟩
      exact hfirst u hu hlu
    rw [hhead]
    refine ⟨((dedupLabels (post.map (·.VersionLabel))).filter
      (fun y => decide (y ≠ v.VersionLabel))).filter
        (fun y => decide (y ∉ pre.map (·.VersionLabel))), ?_⟩
    congr 1
    exact List.filter_cons_of_pos
      (p := fun y => decide (y ∉ pre.map (·.VersionLabel))) hnot
  · intro X hex hall
    have hone : blockingLabels version current s h.AllVersions = [X] := by
      unfold blockingLabels
      apply dedupLabels_eq_singleton
      · obtain ⟨v, hv, hb⟩ := hex
        intro hnil
        have hvm := (hmem v).mpr ⟨hv, hb⟩
        rw [List.map_eq_nil_iff] at hnil
        rw [hnil] at hvm
        exact absurd hvm (List.not_mem_nil v)
      · intro y hy
        rw [List.mem_map] at hy
        obtain ⟨v, hv, hl⟩ := hy
        rw [← hl]
        exact hall v ((hmem v).mp hv).1 ((hmem v).mp hv).2
    rw [isAppVersionDeployable_rule4 version current h s hstrict hcur hseq, hone]
    simp [requiredCause, String.intercalate, String.intercalate.go]

/-- C11 (witness): the row at lines 747-807, three required releases labelled
3.0 between the current release at sequence 1 and the target at sequence 5:
"version 3.0 is required". -/
theorem blocking_labels_deduplicated_witness :
    isAppVersionDeployable nonSemverSameLabelTest.version
        nonSemverSameLabelTest.appVersions false =
      some (false,
        "This version cannot be deployed because version 3.0 is required and must be deployed first.") :=
  (blocking_labels_deduplicated nonSemverSameLabelTest.version
    { Sequence := 1, ChannelID := "channel-id-1", Cursor := 2, VersionLabel := "2.0" }
    _ false rfl rfl (by decide)).2.2.2 "3.0"
    ⟨{ Sequence := 2, ChannelID := "channel-id-1", Cursor := 3, VersionLabel := "3.0",
       IsRequired := true }, by decide, by decide⟩
    (by decide)


/-! ## Theorems: monotonicity and direction of the blocking scan -/

/-- A release that is not required never blocks. -/
theorem isBlocking_of_not_required (version current : DownstreamVersion) (s : Bool)
    (v : DownstreamVersion) (hreq : v.IsRequired = false) :
    isBlocking version current s v = false := by
  simp [isBlocking, hreq]

/-- Inserting a release that is not required anywhere in the stored history
leaves the result of the evaluator as it was, whatever it was. -/
theorem isAppVersionDeployable_insert_eq (version : DownstreamVersion) (h : DownstreamVersions)
    (s : Bool) (pre post : List DownstreamVersion) (v : DownstreamVersion)
    (hreq : v.IsRequired = false) :
    isAppVersionDeployable version (some { h with AllVersions := pre ++ v :: post }) s =
      isAppVersionDeployable version (some { h with AllVersions := pre ++ post }) s := by
  have hfilter : ∀ current : DownstreamVersion,
      blockingLabels version current s (pre ++ v :: post) =
        blockingLabels version current s (pre ++ post) := by
    intro current
    unfold blockingLabels blockingVersions
    rw [List.filter_append, List.filter_append,
      List.filter_cons_of_neg (by
        rw [isBlocking_of_not_required version current s v hreq]
        exact Bool.false_ne_true)]
  unfold isAppVersionDeployable
  cases hc : h.CurrentVersion with
  | none => simp [hc]
  | some current => simp only [hc, hfilter current]

/-- A deployable result of the evaluator carries the empty cause. -/
theorem isAppVersionDeployable_true_cause (version : DownstreamVersion)
    (appVersions : Option DownstreamVersions) (s : Bool)
    (hdep : (isAppVersionDeployable version appVersions s).map Prod.fst = some true) :
    isAppVersionDeployable version appVersions s = some (true, "") := by
  by_cases hf : version.HasFailingStrictPreflights = true
  · simp [isAppVersionDeployable, hf] at hdep
  · have hf2 : version.HasFailingStrictPreflights = false := by simpa using hf
    cases appVersions with
    | none => simp [isAppVersionDeployable, hf2] at hdep
    | some h =>
      cases hc : h.CurrentVersion with
      | none => simp [isAppVersionDeployable, hf2, hc]
      | some current =>
        by_cases hseq : version.Sequence = current.Sequence
        · simp [isAppVersionDeployable, hf2, hc, hseq]
        · rw [isAppVersionDeployable_rule4 version current h s hf2 hc hseq] at hdep ⊢
          by_cases hl : blockingLabels version current s h.AllVersions = []
          · simp [hl]
          · simp [hl] at hdep

/-- C17: when the evaluator returns deployable for a target and a history,
inserting into the history a release with `IsRequired = false` (at any place of
the list, with any sequence, the ones strictly between target and current
included) leaves the result `(true, "")`. -/
theorem isAppVersionDeployable_monotone (version : DownstreamVersion) (h : DownstreamVersions)
    (s : Bool) (pre post : List DownstreamVersion) (v : DownstreamVersion)
    (hall : h.AllVersions = pre ++ post)
    (hreq : v.IsRequired = false)
    (hdep : (isAppVersionDeployable version (some h) s).map Prod.fst = some true) :
    isAppVersionDeployable version (some { h with AllVersions := pre ++ v :: post }) s =
      some (true, "") := by
  rw [isAppVersionDeployable_insert_eq version h s pre post v hreq, ← hall]
  exact isAppVersionDeployable_true_cause version (some h) s hdep

/-- C17 (witness): the row at lines 973-1040 is deployable (target at sequence
3, current release at sequence 0); a release at sequence 2 that is not
required, put at the head of the history, leaves it deployable. -/
theorem isAppVersionDeployable_monotone_witness :
    isAppVersionDeployable semverSameVariantsTest.version
      (semverSameVariantsTest.appVersions.map fun h =>
        { h with AllVersions :=
            { Sequence := 2, ChannelID := "channel-id-3", Cursor := 9, VersionLabel := "9.0",
              Semver := some { Major := 9 } } :: h.AllVersions }) true = some (true, "") :=
  isAppVersionDeployable_monotone semverSameVariantsTest.version
    (semverSameVariantsTest.appVersions.getD { }) true []
    (semverSameVariantsTest.appVersions.getD { }).AllVersions
    { Sequence := 2, ChannelID := "channel-id-3", Cursor := 9, VersionLabel := "9.0",
      Semver := some { Major := 9 } } rfl rfl (by decide)

/-- The blocking predicate does not tell target from current. -/
theorem isBlocking_swap (t c : DownstreamVersion) (s : Bool) (v : DownstreamVersion) :
    isBlocking t c s v = isBlocking c t s v := by
  unfold isBlocking
  rw [min_comm t.Sequence c.Sequence, max_comm t.Sequence c.Sequence]
  cases isSameUpstreamRelease v t s <;> cases isSameUpstreamRelease v c s <;> simp

/-- C18: the blocking scan is the same in both directions: over one release
list, for two releases of distinct sequences without failing strict
preflights, deploying `t` over the current release `c` and deploying `c` over
the current release `t` give the same pair `(deployable, cause)`. -/
theorem isAppVersionDeployable_direction (all : List DownstreamVersion)
    (t c : DownstreamVersion) (s : Bool)
    (hseq : t.Sequence ≠ c.Sequence)
    (ht : t.HasFailingStrictPreflights = false)
    (hc : c.HasFailingStrictPreflights = false) :
    isAppVersionDeployable t (some { AllVersions := all, CurrentVersion := some c }) s =
      isAppVersionDeployable c (some { AllVersions := all, CurrentVersion := some t }) s := by
  have hlabels : blockingLabels t c s all = blockingLabels c t s all := by
    unfold blockingLabels blockingVersions
    rw [List.filter_congr (fun v _ => isBlocking_swap t c s v)]
  rw [isAppVersionDeployable_rule4 t c _ s ht rfl hseq,
    isAppVersionDeployable_rule4 c t _ s hc rfl (Ne.symm hseq)]
  simp only [hlabels]

/-- C18 (witness): the releases of the row at lines 566-621 in the other
direction: rolling back from sequence 4 to sequence 1 is blocked by the same
required releases 3.0 and 4.0 as the upgrade from 1 to 4. -/
theorem isAppVersionDeployable_direction_witness :
    isAppVersionDeployable
        { Sequence := 1, ChannelID := "channel-id-1", Cursor := 2, VersionLabel := "2.0",
          IsRequired := true }
        (some { AllVersions := (nonSemverRequiredGapTest.appVersions.getD { }).AllVersions,
                CurrentVersion := some nonSemverRequiredGapTest.version }) false =
      some (false,
        "This version cannot be deployed because versions 3.0, 4.0 are required and must be deployed first.") :=
  (isAppVersionDeployable_direction (nonSemverRequiredGapTest.appVersions.getD { }).AllVersions
    nonSemverRequiredGapTest.version
    { Sequence := 1, ChannelID := "channel-id-1", Cursor := 2, VersionLabel := "2.0",
      IsRequired := true } false (by decide) rfl rfl).symm.trans (by decide)


/-! ## Theorems: the gate without strict preflights, and a failing poll -/

/-- C19: for a release whose spec declares no strict preflights (a `NULL` or
empty spec included), whatever its status, skipped flag and stored result are,
the gate does not poll (it returns with no fuel at all and leaves the store as
it is) and never returns `blocked = true`: it returns `false`, or the
unmarshal error of the stored result. -/
theorem isBlockedDueToStricPreFlights_not_strict {P R : Type} (env : Env P R) (fuel : Nat)
    (s : Store) (appID : String) (sequence : Int) (row : PreflightScan)
    (hscan : env.faults.scan 0 = false)
    (hrow : preflightQuery s appID sequence = some row)
    (hstrict : hasStrictPreflights env row = some false ∨
      row.preflightSpecStr = none ∨ row.preflightSpecStr = some "") :
    hasStrictPreflights env row = some false ∧
    mustPoll false row = false ∧
    isBlockedDueToStricPreFlights env 0 s appID sequence =
      isBlockedDueToStricPreFlights env fuel s appID sequence ∧
    (isBlockedDueToStricPreFlights env fuel s appID sequence = some (s, .ok false) ∨
      isBlockedDueToStricPreFlights env fuel s appID sequence = some (s, .error .unmarshal)) ∧
    ∀ db, isBlockedDueToStricPreFlights env fuel s appID sequence ≠ some (db, .ok true) := by
  have hs : hasStrictPreflights env row = some false := by
    rcases hstrict with h | h | h
    · exact h
    · simp [hasStrictPreflights, h]
    · simp [hasStrictPreflights, h]
  have hgate : ∀ f, isBlockedDueToStricPreFlights env f s appID sequence =
      some (s, gateVerdict env false row) := by
    intro f
    simp [isBlockedDueToStricPreFlights, hscan, hrow, hs, mustPoll]
  have hverdict : gateVerdict env false row = .ok false ∨
      gateVerdict env false row = .error .unmarshal := by
    unfold gateVerdict
    cases strictPreflightFailing env row with
    | none => exact Or.inr rfl
    | some failing => exact Or.inl (by simp)
  refine ⟨hs, by simp [mustPoll], by rw [hgate 0, hgate fuel], ?_, ?_⟩
  · rw [hgate fuel]
    rcases hverdict with h | h
    · exact Or.inl (by rw [h])
    · exact Or.inr (by rw [h])
  · intro db hdb
    rw [hgate fuel] at hdb
    simp only [Option.some.injEq, Prod.mk.injEq] at hdb
    rcases hverdict with h | h
    · rw [h] at hdb
      exact absurd hdb.2 (by simp)
    · rw [h] at hdb
      exact absurd hdb.2 (by simp)

/-- C19 (witness): release 1 has a `NULL` spec, status `pending_preflight` and a
stored failing result; the gate returns `blocked = false` without any poll. -/
theorem isBlockedDueToStricPreFlights_not_strict_witness :
    isBlockedDueToStricPreFlights commitFailsEnv 0 noSpecStore "app" 1 =
      some (noSpecStore, .ok false) ∧
    ∀ db, isBlockedDueToStricPreFlights commitFailsEnv 0 noSpecStore "app" 1 ≠
      some (db, .ok true) :=
  ⟨rfl, (isBlockedDueToStricPreFlights_not_strict commitFailsEnv 0 noSpecStore "app" 1
    ⟨some "pending_preflight", none, none, some "fail"⟩ rfl rfl (Or.inr (Or.inl rfl))).2.2.2.2⟩

/-- A poll whose first `k` reads see `pending_preflight` and whose next read
fails ends there, with an error, given fuel for `k + 1` reads. -/
theorem pollStatus_lookup_failure {P R : Type} (env : Env P R) (appID : String)
    (sequence : Int) (s0 : Store) (k : Nat) :
    ∀ (n fuel : Nat),
      (∀ j, n ≤ j → j < n + k →
        getStatus env j (evolve env (j + 1) s0) appID sequence = some VersionPendingPreflight) →
      getStatus env (n + k) (evolve env (n + k + 1) s0) appID sequence = none →
      k < fuel →
      pollStatus env appID sequence fuel n (evolve env n s0) =
        some (evolve env (n + k + 1) s0, n + k + 1, false) := by
  induction k with
  | zero =>
    intro n fuel _ hfail hfuel
    obtain ⟨f, rfl⟩ : ∃ f, fuel = f + 1 := ⟨fuel - 1, by omega⟩
    rw [pollStatus]
    change (match getStatus env n (evolve env (n + 1) s0) appID sequence with
      | none => some (evolve env (n + 1) s0, n + 1, false)
      | some versionStatus =>
        if versionStatus ≠ VersionPendingPreflight then some (evolve env (n + 1) s0, n + 1, true)
        else pollStatus env appID sequence f (n + 1) (evolve env (n + 1) s0)) = _
    rw [Nat.add_zero] at hfail
    rw [hfail]
  | succ k ih =>
    intro n fuel hpend hfail hfuel
    obtain ⟨f, rfl⟩ : ∃ f, fuel = f + 1 := ⟨fuel - 1, by omega⟩
    rw [pollStatus]
    change (match getStatus env n (evolve env (n + 1) s0) appID sequence with
      | none => some (evolve env (n + 1) s0, n + 1, false)
      | some versionStatus =>
        if versionStatus ≠ VersionPendingPreflight then some (evolve env (n + 1) s0, n + 1, true)
        else pollStatus env appID sequence f (n + 1) (evolve env (n + 1) s0)) = _
    rw [hpend n (Nat.le_refl n) (by omega)]
    dsimp only
    rw [if_neg (by simp)]
    have harith : n + 1 + k = n + (k + 1) := by omega
    have := ih (n + 1) f
      (fun j hj1 hj2 => hpend j (by omega) (by omega))
      (by rw [harith]; exact hfail) (by omega)
    rw [harith] at this
    exact this

/-- C20: when the gate polls and a status lookup fails (after any number of
reads that saw `pending_preflight`), the gate stops with the poll error and no
verdict, and `DeployVersion` returns "failed to validate strict preflights"
wrapping it; the store is the one other sessions produced, with neither update
applied. -/
theorem poll_lookup_failure_aborts {P R : Type} (env : Env P R) (fuel : Nat) (s : Store)
    (appID : String) (sequence : Int) (row : PreflightScan) (strict : Bool) (k : Nat)
    (hscan : env.faults.scan 0 = false)
    (hrow : preflightQuery s appID sequence = some row)
    (hstrict : hasStrictPreflights env row = some strict)
    (hpoll : mustPoll strict row = true)
    (hpending : ∀ j < k,
      getStatus env j (evolve env (j + 1) s) appID sequence = some VersionPendingPreflight)
    (hfail : getStatus env k (evolve env (k + 1) s) appID sequence = none)
    (hfuel : k < fuel) :
    isBlockedDueToStricPreFlights env fuel s appID sequence =
      some (evolve env (k + 1) s, .error .poll) ∧
    DeployVersion env fuel s appID sequence =
      some (evolve env (k + 1) s, some (.strictPreflights .poll)) := by
  have hp := pollStatus_lookup_failure env appID sequence s k 0 fuel
    (fun j _ hj => hpending j (by omega)) (by simpa using hfail) hfuel
  simp only [Nat.zero_add] at hp
  have hgate : isBlockedDueToStricPreFlights env fuel s appID sequence =
      some (evolve env (k + 1) s, .error .poll) := by
    unfold isBlockedDueToStricPreFlights
    rw [if_neg (by simp [hscan]), hrow]
    dsimp only
    rw [hstrict]
    dsimp only
    rw [if_pos hpoll]
    have hp2 : pollStatus env appID sequence fuel 0 s =
        some (evolve env (k + 1) s, k + 1, false) := hp
    rw [hp2]
  refine ⟨hgate, ?_⟩
  unfold DeployVersion
  rw [hgate]

/-- C20 (witness): on the worked store the first status read sees
`pending_preflight` and the second one fails; the gate returns the poll error
and `DeployVersion` wraps it, the store unchanged. -/
theorem poll_lookup_failure_aborts_witness :
    isBlockedDueToStricPreFlights statusLookupFailsEnv 5 pendingStore "app" 1 =
      some (pendingStore, .error .poll) ∧
    DeployVersion statusLookupFailsEnv 5 pendingStore "app" 1 =
      some (pendingStore, some (.strictPreflights .poll)) :=
  poll_lookup_failure_aborts statusLookupFailsEnv 5 pendingStore "app" 1
    ⟨some "pending_preflight", none, some "strict", none⟩ true 1 rfl rfl rfl rfl
    (fun j hj => by
      have hj0 : j = 0 := by omega
      subst hj0
      rfl)
    rfl (by decide)


/-! ## The rows without semver that rule 4 does not explain -/

/-- What the sources at hand say about the two rows of
`Test_isAppVersionDeployable` the model of rule 4 does not reproduce. Both are
rows without semver that the test expects deployable with an empty cause: at
lines 435-477 the current release is on another channel than the target and
the required releases in between are on the target's channel; at lines 622-686
the required releases in between are on another channel than the target's or
have a cursor above the target's. -/
theorem nonSemver_rows_beyond_rule4 :
    nonSemverOtherChannelTest ∈ appVersionDeployableTests ∧
    nonSemverHigherCursorTest ∈ appVersionDeployableTests ∧
    (nonSemverOtherChannelTest.isSemverRequired = false ∧
      nonSemverOtherChannelTest.expectedIsDeployable = true ∧
      nonSemverOtherChannelTest.expectedCause = "" ∧
      reproduces nonSemverOtherChannelTest = false) ∧
    (nonSemverHigherCursorTest.isSemverRequired = false ∧
      nonSemverHigherCursorTest.expectedIsDeployable = true ∧
      nonSemverHigherCursorTest.expectedCause = "" ∧
      reproduces nonSemverHigherCursorTest = false) ∧
    (∀ v ∈ (nonSemverHigherCursorTest.appVersions.getD { }).AllVersions,
      v.IsRequired = true → 1 < v.Sequence → v.Sequence < 5 →
        v.ChannelID ≠ nonSemverHigherCursorTest.version.ChannelID ∨
          nonSemverHigherCursorTest.version.Cursor < v.Cursor) := by
  decide


/-! ## Theorems: what `DeployVersion` returns and what it leaves untouched -/

/-- C21: `DeployVersion` returns the non-retryable `util.ActionableError` exactly
when the gate returned `blocked = true` without error; every other error is a
wrapped error naming the step that failed and is not actionable; and on every
error the store is the one other sessions produced, with no update applied. -/
theorem DeployVersion_block_vs_failure {P R : Type} (env : Env P R) (fuel : Nat) (s : Store)
    (appID : String) (sequence : Int) (s2 : Store) (r : Option DeployError)
    (h : DeployVersion env fuel s appID sequence = some (s2, r)) :
    (r = some .blocked ↔
      isBlockedDueToStricPreFlights env fuel s appID sequence = some (s2, .ok true)) ∧
    (∀ err, r = some err →
      (err.actionable =
          some { NoRetry := true,
                 Message := "Unable to deploy as preflight check's strict analyzer has failed" } ↔
        err = .blocked) ∧
      (err ≠ .blocked → err.actionable = none ∧ ∃ step, err.wrap = some step)) ∧
    (r ≠ none → ∃ n, s2 = evolve env n s) := by
  refine ⟨?_, ?_, ?_⟩
  · unfold DeployVersion at h
    cases hg : isBlockedDueToStricPreFlights env fuel s appID sequence with
    | none => rw [hg] at h; exact absurd h (by simp)
    | some res =>
      obtain ⟨db, v⟩ := res
      rw [hg] at h
      cases v with
      | error e =>
        simp only [Option.some.injEq, Prod.mk.injEq] at h
        constructor
        · intro hr
          rw [hr] at h
          exact absurd h.2 (by simp)
        · intro hc
          simp only [Option.some.injEq, Prod.mk.injEq] at hc
          exact absurd hc.2 (by simp)
      | ok b =>
        cases b with
        | true =>
          simp only [Option.some.injEq, Prod.mk.injEq] at h
          constructor
          · intro _
            rw [h.1]
          · intro _
            exact h.2.symm
        | false =>
          dsimp only at h
          constructor
          · intro hr
            rw [hr] at h
            split at h
            · simp at h
            · split at h
              · simp at h
              · split at h
                · simp at h
                · split at h
                  · simp at h
                  · simp at h
          · intro hc
            simp only [Option.some.injEq, Prod.mk.injEq] at hc
            exact absurd hc.2 (by simp)
  · intro err _
    cases err <;> simp [DeployError.actionable, DeployError.wrap]
  · intro hr
    obtain ⟨n, herr, _⟩ := DeployVersion_outcome env fuel s appID sequence s2 r h
    exact ⟨n, herr hr⟩

/-- C21 (witness): on the worked store the preflight run ends with a failing
result during the poll; `DeployVersion` returns the actionable error and the
pointer stays at release 0. -/
theorem DeployVersion_block_vs_failure_witness :
    DeployVersion (waitingEnv "fail" {}) 5 pendingStore "app" 1 =
      some (finishPreflight "fail" pendingStore, some .blocked) ∧
    isBlockedDueToStricPreFlights (waitingEnv "fail" {}) 5 pendingStore "app" 1 =
      some (finishPreflight "fail" pendingStore, .ok true) :=
  ⟨rfl, (DeployVersion_block_vs_failure (waitingEnv "fail" {}) 5 pendingStore "app" 1
    (finishPreflight "fail" pendingStore) (some .blocked) rfl).1.mp rfl⟩


/-- The release rows keep their keys under the status update. -/
theorem updateVersionStatus_keeps_release (w : Store) (sequence : Int) (appID : String)
    (now : Nat) (app : String) (q : Int)
    (hex : w.app_downstream_version.any
      (fun rel => decide (rel.app_id = app) && decide (rel.sequence = q)) = true) :
    (updateVersionStatus (updateCurrentSequence w sequence appID) sequence appID
        now).app_downstream_version.any
      (fun rel => decide (rel.app_id = app) && decide (rel.sequence = q)) = true := by
  rw [List.any_eq_true] at hex ⊢
  obtain ⟨rel, hrel, hkeys⟩ := hex
  simp only [updateVersionStatus, updateCurrentSequence, List.mem_map]
  by_cases h0 : rel.sequence = sequence ∧ rel.app_id = appID
  · exact ⟨_, ⟨rel, hrel, rfl⟩, by rw [if_pos h0]; exact hkeys⟩
  · exact ⟨_, ⟨rel, hrel, rfl⟩, by rw [if_neg h0]; exact hkeys⟩

/-- Both updates keep the pointer invariant when the release they point to
exists. -/
theorem updates_keep_pointerNamesRelease (w : Store) (sequence : Int) (appID : String)
    (now : Nat) (hinv : pointerNamesRelease w = true)
    (hex : ∃ rel ∈ w.app_downstream_version, rel.app_id = appID ∧ rel.sequence = sequence) :
    pointerNamesRelease
      (updateVersionStatus (updateCurrentSequence w sequence appID) sequence appID now) =
        true := by
  unfold pointerNamesRelease at hinv ⊢
  rw [List.all_eq_true] at hinv ⊢
  intro d2 hd2
  have hd2m : d2 ∈ w.app_downstream.map (fun d =>
      if d.app_id = appID then { d with current_sequence := some sequence } else d) := hd2
  rw [List.mem_map] at hd2m
  obtain ⟨d, hd, hdd⟩ := hd2m
  by_cases h0 : d.app_id = appID
  · rw [if_pos h0] at hdd
    rw [← hdd]
    dsimp only
    apply updateVersionStatus_keeps_release
    rw [List.any_eq_true]
    obtain ⟨rel, hrel, happ, hseq⟩ := hex
    exact ⟨rel, hrel, by simp [happ, hseq, h0]⟩
  · rw [if_neg h0] at hdd
    rw [← hdd]
    have hd0 := hinv d hd
    cases hq : d.current_sequence with
    | none => rfl
    | some q =>
      rw [hq] at hd0
      dsimp only at hd0 ⊢
      exact updateVersionStatus_keeps_release w sequence appID now d.app_id q hd0

/-- C22 (counterexample): application version 5 has a row in `app_version` but no
release row in `app_downstream_version`; the pointer names release 0, which
exists. `DeployVersion("app", 5)` returns nil and leaves the pointer at 5, which
names no release. -/
theorem DeployVersion_breaks_pointer_invariant :
    pointerNamesRelease versionWithoutReleaseStore = true ∧
    DeployVersion quietEnv 0 versionWithoutReleaseStore "app" 5 =
      some ({ versionWithoutReleaseStore with
        app_downstream := [{ app_id := "app", cluster_id := "this-cluster",
                             current_sequence := some 5 }] }, none) ∧
    pointerNamesRelease { versionWithoutReleaseStore with
        app_downstream := [{ app_id := "app", cluster_id := "this-cluster",
                             current_sequence := some 5 }] } = false :=
  ⟨by decide, rfl, by decide⟩

/-- C22 (amended): `DeployVersion` keeps the invariant "a pointer that is set
names a release row of its application" on every error return, and on a nil
return when the application has a release row with the given sequence in the
store the transaction ran on. -/
theorem DeployVersion_keeps_pointer_invariant {P R : Type} (env : Env P R) (fuel : Nat)
    (s : Store) (appID : String) (sequence : Int) (s2 : Store) (r : Option DeployError)
    (h : DeployVersion env fuel s appID sequence = some (s2, r)) :
    (∃ n, (r ≠ none → s2 = evolve env n s) ∧
      (r = none →
        s2 = updateVersionStatus (updateCurrentSequence (evolve env n s) sequence appID)
          sequence appID env.now) ∧
      (pointerNamesRelease (evolve env n s) = true →
        (r = none → ∃ rel ∈ (evolve env n s).app_downstream_version,
          rel.app_id = appID ∧ rel.sequence = sequence) →
        pointerNamesRelease s2 = true)) ∧
    ((∀ k t, env.interfere k t = t) → pointerNamesRelease s = true →
      (r = none → ∃ rel ∈ s.app_downstream_version,
        rel.app_id = appID ∧ rel.sequence = sequence) →
      pointerNamesRelease s2 = true) := by
  obtain ⟨n, herr, hok⟩ := DeployVersion_outcome env fuel s appID sequence s2 r h
  have hmain : pointerNamesRelease (evolve env n s) = true →
      (r = none → ∃ rel ∈ (evolve env n s).app_downstream_version,
        rel.app_id = appID ∧ rel.sequence = sequence) →
      pointerNamesRelease s2 = true := by
    intro hinv hex
    cases r with
    | none =>
      rw [hok rfl]
      exact updates_keep_pointerNamesRelease _ sequence appID env.now hinv (hex rfl)
    | some err =>
      rw [herr (by simp)]
      exact hinv
  refine ⟨⟨n, herr, hok, hmain⟩, ?_⟩
  intro hquiet hinv hex
  have hw := evolve_of_no_interference env hquiet n s
  rw [hw] at hmain
  exact hmain hinv hex

/-- C22 (witness): on the worked store, where release 1 has a row, deploying it
returns nil and the pointer, now 1, names that row. -/
theorem DeployVersion_keeps_pointer_invariant_witness :
    DeployVersion quietEnv 1 (finishPreflight "pass" pendingStore) "app" 1 =
      some (updateVersionStatus
        (updateCurrentSequence (finishPreflight "pass" pendingStore) 1 "app") 1 "app" 0,
        none) ∧
    pointerNamesRelease (updateVersionStatus
        (updateCurrentSequence (finishPreflight "pass" pendingStore) 1 "app") 1 "app" 0) =
      true :=
  ⟨rfl, (DeployVersion_keeps_pointer_invariant quietEnv 1 (finishPreflight "pass" pendingStore)
    "app" 1 _ none rfl).2 (fun _ _ => rfl) (by decide)
    (fun _ => ⟨{ app_id := "app", sequence := 1, parent_sequence := 1,
                 status := some "pending", preflight_result := some "pass" },
      by decide, rfl, rfl⟩)⟩


/-- C23: `DeployVersion` writes nothing but the pointer of the application and
the status and activation time of its release with the given sequence. Against
the store other sessions produced (the pre-call store when nobody else writes):
`app_version` is unchanged; the release rows are the same rows in the same
order, each with its keys, identity columns, skipped flag and stored result
unchanged, and every row of another application or another sequence wholly
unchanged; the pointer rows are the same rows in the same order, those of other
applications wholly unchanged. -/
theorem DeployVersion_frame {P R : Type} (env : Env P R) (fuel : Nat) (s : Store)
    (appID : String) (sequence : Int) (s2 : Store) (r : Option DeployError)
    (h : DeployVersion env fuel s appID sequence = some (s2, r)) :
    ∃ n,
      ((∀ k t, env.interfere k t = t) → evolve env n s = s) ∧
      s2.app_version = (evolve env n s).app_version ∧
      List.Forall₂
        (fun rel rel2 : AppDownstreamVersionRow =>
          rel2.app_id = rel.app_id ∧ rel2.sequence = rel.sequence ∧
          rel2.parent_sequence = rel.parent_sequence ∧ rel2.identity = rel.identity ∧
          rel2.preflight_skipped = rel.preflight_skipped ∧
          rel2.preflight_result = rel.preflight_result ∧
          (¬ (rel.app_id = appID ∧ rel.sequence = sequence) → rel2 = rel))
        (evolve env n s).app_downstream_version s2.app_downstream_version ∧
      List.Forall₂
        (fun d d2 : AppDownstreamRow =>
          d2.app_id = d.app_id ∧ d2.cluster_id = d.cluster_id ∧
          (d.app_id ≠ appID → d2 = d))
        (evolve env n s).app_downstream s2.app_downstream := by
  obtain ⟨n, herr, hok⟩ := DeployVersion_outcome env fuel s appID sequence s2 r h
  refine ⟨n, fun hquiet => evolve_of_no_interference env hquiet n s, ?_⟩
  cases r with
  | some err =>
    rw [herr (by simp)]
    refine ⟨rfl, ?_, ?_⟩
    · rw [List.forall₂_same]
      intro rel _
      exact ⟨rfl, rfl, rfl, rfl, rfl, rfl, fun _ => rfl⟩
    · rw [List.forall₂_same]
      intro d _
      exact ⟨rfl, rfl, fun _ => rfl⟩
  | none =>
    rw [hok rfl]
    refine ⟨rfl, ?_, ?_⟩
    · simp only [updateVersionStatus, updateCurrentSequence]
      rw [List.forall₂_map_right_iff, List.forall₂_same]
      intro rel _
      by_cases h0 : rel.sequence = sequence ∧ rel.app_id = appID
      · rw [if_pos h0]
        exact ⟨rfl, rfl, rfl, rfl, rfl, rfl, fun hne => absurd ⟨h0.2, h0.1⟩ hne⟩
      · rw [if_neg h0]
        exact ⟨rfl, rfl, rfl, rfl, rfl, rfl, fun _ => rfl⟩
    · simp only [updateVersionStatus, updateCurrentSequence]
      rw [List.forall₂_map_right_iff, List.forall₂_same]
      intro d _
      by_cases h0 : d.app_id = appID
      · rw [if_pos h0]
        exact ⟨rfl, rfl, fun hne => absurd h0 hne⟩
      · rw [if_neg h0]
        exact ⟨rfl, rfl, fun _ => rfl⟩

/-- C23 (witness): deploying release 1 on the worked store leaves `app_version`
and the row of the previously deployed release 0, status included, as they
were. -/
theorem DeployVersion_frame_witness :
    DeployVersion quietEnv 1 (finishPreflight "pass" pendingStore) "app" 1 =
      some ({ finishPreflight "pass" pendingStore with
        app_downstream_version :=
          [{ app_id := "app", sequence := 1, parent_sequence := 1, status := some "deployed",
             applied_at := some 0, preflight_result := some "pass" },
           { app_id := "app", sequence := 0, parent_sequence := 0, status := some "deployed" }],
        app_downstream := [{ app_id := "app", cluster_id := "this-cluster",
                             current_sequence := some 1 }] }, none) ∧
    ∃ n,
      ((∀ k t, quietEnv.interfere k t = t) →
        evolve quietEnv n (finishPreflight "pass" pendingStore) =
          finishPreflight "pass" pendingStore) ∧
      (finishPreflight "pass" pendingStore).app_version =
        (evolve quietEnv n (finishPreflight "pass" pendingStore)).app_version :=
  ⟨rfl, by
    obtain ⟨n, h1, h2, _⟩ := DeployVersion_frame quietEnv 1
      (finishPreflight "pass" pendingStore) "app" 1 _ none rfl
    exact ⟨n, h1, h2⟩⟩


/-! ## Theorems: when the gate polls, and that the poll has no deadline -/

/-- The gate when it does not poll: it returns at once, from the row read at
entry. -/
theorem isBlockedDueToStricPreFlights_no_poll {P R : Type} (env : Env P R) (fuel : Nat)
    (s : Store) (appID : String) (sequence : Int) (row : PreflightScan) (strict : Bool)
    (hscan : env.faults.scan 0 = false)
    (hrow : preflightQuery s appID sequence = some row)
    (hstrict : hasStrictPreflights env row = some strict)
    (hpoll : mustPoll strict row = false) :
    isBlockedDueToStricPreFlights env fuel s appID sequence =
      some (s, gateVerdict env strict row) := by
  simp [isBlockedDueToStricPreFlights, hscan, hrow, hstrict, hpoll]

/-- The gate when it polls: what it returns is decided by the poll. -/
theorem isBlockedDueToStricPreFlights_poll {P R : Type} (env : Env P R) (fuel : Nat)
    (s : Store) (appID : String) (sequence : Int) (row : PreflightScan) (strict : Bool)
    (hscan : env.faults.scan 0 = false)
    (hrow : preflightQuery s appID sequence = some row)
    (hstrict : hasStrictPreflights env row = some strict)
    (hpoll : mustPoll strict row = true) :
    isBlockedDueToStricPreFlights env fuel s appID sequence =
      match pollStatus env appID sequence fuel 0 s with
      | none => none
      | some (s1, _, false) => some (s1, .error .poll)
      | some (s1, n, true) =>
        if env.faults.scan 1 then some (env.interfere n s1, .error .rescan)
        else
          match preflightQuery (env.interfere n s1) appID sequence with
          | none => some (env.interfere n s1, .error .rescan)
          | some latest => some (env.interfere n s1, gateVerdict env strict latest) := by
  simp [isBlockedDueToStricPreFlights, hscan, hrow, hstrict, hpoll]

/-- C28: the gate polls exactly when strict preflights are declared, preflights
were not skipped and the status read at entry is `pending_preflight`. When it
polls it needs at least one status read; otherwise (skipped, or any other
status, a `NULL` one included) it returns at once, the store untouched, with
the verdict taken from the result read at entry. -/
theorem isBlockedDueToStricPreFlights_polls_iff {P R : Type} (env : Env P R) (fuel : Nat)
    (s : Store) (appID : String) (sequence : Int) (row : PreflightScan) (strict : Bool)
    (hscan : env.faults.scan 0 = false)
    (hrow : preflightQuery s appID sequence = some row)
    (hstrict : hasStrictPreflights env row = some strict) :
    (mustPoll strict row = true ↔
      strict = true ∧ nullBool row.preflightSkipped = false ∧
        nullString row.status = "pending_preflight") ∧
    (mustPoll strict row = true →
      isBlockedDueToStricPreFlights env 0 s appID sequence = none) ∧
    (mustPoll strict row = false →
      isBlockedDueToStricPreFlights env fuel s appID sequence =
        some (s, gateVerdict env strict row)) ∧
    (row.status = none ∨ row.preflightSkipped = some true → mustPoll strict row = false) := by
  refine ⟨?_, ?_, ?_, ?_⟩
  · simp [mustPoll, VersionPendingPreflight, and_assoc]
  · intro hpoll
    rw [isBlockedDueToStricPreFlights_poll env 0 s appID sequence row strict hscan hrow
      hstrict hpoll]
    rfl
  · exact isBlockedDueToStricPreFlights_no_poll env fuel s appID sequence row strict hscan
      hrow hstrict
  · rintro (h | h)
    · simp [mustPoll, h, nullString, VersionPendingPreflight]
    · simp [mustPoll, h, nullBool]

/-- C28 (witness): on the worked store with the preflights of release 1 marked
skipped, the gate does not wait although the status is `pending_preflight`: it
returns at once with `blocked = false`, no result being stored. -/
theorem isBlockedDueToStricPreFlights_polls_iff_witness :
    isBlockedDueToStricPreFlights quietEnv 0 skippedStore "app" 1 =
      some (skippedStore, .ok false) :=
  (isBlockedDueToStricPreFlights_polls_iff quietEnv 0 skippedStore "app" 1
    ⟨some "pending_preflight", some true, some "strict", none⟩ true rfl rfl rfl).2.2.1 rfl


/-- A poll makes at most as many status reads as it has fuel. -/
theorem pollStatus_reads_le {P R : Type} (env : Env P R) (appID : String) (sequence : Int)
    (fuel : Nat) :
    ∀ (n : Nat) (s s1 : Store) (m : Nat) (ok : Bool),
      pollStatus env appID sequence fuel n s = some (s1, m, ok) → m ≤ n + fuel := by
  induction fuel with
  | zero =>
    intro n s s1 m ok h
    simp [pollStatus] at h
  | succ f ih =>
    intro n s s1 m ok h
    rw [pollStatus] at h
    split at h
    · simp only [Option.some.injEq, Prod.mk.injEq] at h
      omega
    · split at h
      · simp only [Option.some.injEq, Prod.mk.injEq] at h
        omega
      · have := ih (n + 1) _ s1 m ok h
        omega

/-- A poll whose reads all see `pending_preflight` does not end, however much
fuel it is given. -/
theorem pollStatus_pending {P R : Type} (env : Env P R) (appID : String) (sequence : Int)
    (s0 : Store) (fuel : Nat) :
    ∀ n : Nat,
      (∀ j, n ≤ j → j < n + fuel →
        getStatus env j (evolve env (j + 1) s0) appID sequence = some VersionPendingPreflight) →
      pollStatus env appID sequence fuel n (evolve env n s0) = none := by
  induction fuel with
  | zero =>
    intro n _
    rfl
  | succ f ih =>
    intro n hpend
    rw [pollStatus]
    change (match getStatus env n (evolve env (n + 1) s0) appID sequence with
      | none => some (evolve env (n + 1) s0, n + 1, false)
      | some versionStatus =>
        if versionStatus ≠ VersionPendingPreflight then some (evolve env (n + 1) s0, n + 1, true)
        else pollStatus env appID sequence f (n + 1) (evolve env (n + 1) s0)) = none
    rw [hpend n (Nat.le_refl n) (by omega)]
    dsimp only
    rw [if_neg (by simp)]
    exact ih (n + 1) (fun j hj1 hj2 => hpend j (by omega) (by omega))

/-- C25 (counterexample): on the worked store, with the release staying in
`pending_preflight` and every status lookup succeeding, the gate returns for no
amount of polling, and so does `DeployVersion`: the wait has no abort path. -/
theorem gate_never_returns_while_pending :
    ¬ ∃ fuel, (isBlockedDueToStricPreFlights quietEnv fuel pendingStore "app" 1).isSome = true ∨
      (DeployVersion quietEnv fuel pendingStore "app" 1).isSome = true := by
  rintro ⟨fuel, hsome⟩
  have hquiet : ∀ n, evolve quietEnv n pendingStore = pendingStore :=
    fun n => evolve_of_no_interference quietEnv (fun _ _ => rfl) n pendingStore
  have hpoll : pollStatus quietEnv "app" 1 fuel 0 pendingStore = none := by
    have := pollStatus_pending quietEnv "app" 1 pendingStore fuel 0
      (fun j _ _ => by rw [hquiet]; rfl)
    exact this
  have hgate : isBlockedDueToStricPreFlights quietEnv fuel pendingStore "app" 1 = none := by
    rw [isBlockedDueToStricPreFlights_poll quietEnv fuel pendingStore "app" 1
      ⟨some "pending_preflight", none, some "strict", none⟩ true rfl rfl rfl rfl, hpoll]
  have hdeploy : DeployVersion quietEnv fuel pendingStore "app" 1 = none := by
    unfold DeployVersion
    rw [hgate]
  rw [hgate, hdeploy] at hsome
  simp at hsome

/-- C25 (amended): the wait of the gate has no deadline and no cancellation.
While every status read sees `pending_preflight`, the gate and `DeployVersion`
do not return; when the gate returns after polling, a status read has failed or
has seen another status, and a failed read gives the poll error, which is
neither `blocked = true` nor `blocked = false`. -/
theorem gate_waits_while_pending {P R : Type} (env : Env P R) (fuel : Nat) (s : Store)
    (appID : String) (sequence : Int) (row : PreflightScan) (strict : Bool)
    (hscan : env.faults.scan 0 = false)
    (hrow : preflightQuery s appID sequence = some row)
    (hstrict : hasStrictPreflights env row = some strict)
    (hpoll : mustPoll strict row = true) :
    ((∀ j < fuel,
        getStatus env j (evolve env (j + 1) s) appID sequence = some VersionPendingPreflight) →
      isBlockedDueToStricPreFlights env fuel s appID sequence = none ∧
        DeployVersion env fuel s appID sequence = none) ∧
    (∀ db res, isBlockedDueToStricPreFlights env fuel s appID sequence = some (db, res) →
      ∃ m, 0 < m ∧ m ≤ fuel ∧
        ((getStatus env (m - 1) (evolve env m s) appID sequence = none ∧
            res = .error .poll) ∨
          ∃ st, getStatus env (m - 1) (evolve env m s) appID sequence = some st ∧
            st ≠ VersionPendingPreflight)) := by
  have hunfold := isBlockedDueToStricPreFlights_poll env fuel s appID sequence row strict
    hscan hrow hstrict hpoll
  constructor
  · intro hpending
    have hp : pollStatus env appID sequence fuel 0 s = none :=
      pollStatus_pending env appID sequence s fuel 0 (fun j _ hj => hpending j (by omega))
    have hgate : isBlockedDueToStricPreFlights env fuel s appID sequence = none := by
      rw [hunfold, hp]
    refine ⟨hgate, ?_⟩
    unfold DeployVersion
    rw [hgate]
  · intro db res hres
    rw [hunfold] at hres
    cases hp : pollStatus env appID sequence fuel 0 s with
    | none =>
      rw [hp] at hres
      exact absurd hres (by simp)
    | some out =>
      obtain ⟨s1, m, ok⟩ := out
      have hspec := pollStatus_spec env appID sequence s fuel 0 s1 m ok hp
      have hle : m ≤ fuel := by
        have := pollStatus_reads_le env appID sequence fuel 0 s s1 m ok hp
        omega
      rw [hp] at hres
      cases ok with
      | false =>
        simp only [Option.some.injEq, Prod.mk.injEq] at hres
        refine ⟨m, hspec.1, hle, Or.inl ⟨?_, hres.2.symm⟩⟩
        rw [← hspec.2.1]
        exact hspec.2.2.2 rfl
      | true =>
        obtain ⟨st, hst, hne⟩ := hspec.2.2.1 rfl
        refine ⟨m, hspec.1, hle, Or.inr ⟨st, ?_, hne⟩⟩
        rw [← hspec.2.1]
        exact hst

/-- C25 (witness): on the worked store with nobody ending the preflight run,
three status reads all see `pending_preflight` and neither the gate nor
`DeployVersion` has returned. -/
theorem gate_waits_while_pending_witness :
    isBlockedDueToStricPreFlights quietEnv 3 pendingStore "app" 1 = none ∧
    DeployVersion quietEnv 3 pendingStore "app" 1 = none :=
  (gate_waits_while_pending quietEnv 3 pendingStore "app" 1
    ⟨some "pending_preflight", none, some "strict", none⟩ true rfl rfl rfl rfl).1
    (fun j hj => by
      interval_cases j <;> rfl)


/-! ## Theorems: the commit does not read the identity of releases -/

theorem preflightQuery_eraseIdentity (s : Store) (appID : String) (sequence : Int) :
    preflightQuery (eraseIdentity s) appID sequence = preflightQuery s appID sequence := by
  unfold preflightQuery eraseIdentity
  simp only [List.find?_map]
  have h1 : ((fun av : AppVersionRow =>
        decide (av.app_id = appID) && decide (av.sequence = sequence)) ∘
      fun r : AppVersionRow => { r with identity := {} }) =
      fun av => decide (av.app_id = appID) && decide (av.sequence = sequence) := rfl
  rw [h1]
  cases hav : s.app_version.find?
      (fun av => decide (av.app_id = appID) && decide (av.sequence = sequence)) with
  | none => rfl
  | some av =>
    dsimp only [Option.map]
    have h2 : ((fun adv : AppDownstreamVersionRow =>
          decide (adv.app_id = av.app_id) && decide (adv.parent_sequence = av.sequence)) ∘
        fun r : AppDownstreamVersionRow => { r with identity := {} }) =
        fun adv => decide (adv.app_id = av.app_id) &&
          decide (adv.parent_sequence = av.sequence) := rfl
    rw [h2]
    cases s.app_downstream_version.find?
        (fun adv => decide (adv.app_id = av.app_id) &&
          decide (adv.parent_sequence = av.sequence)) with
    | none => rfl
    | some adv => rfl

theorem statusQuery_eraseIdentity (s : Store) (appID : String) (sequence : Int) :
    statusQuery (eraseIdentity s) appID sequence = statusQuery s appID sequence := by
  unfold statusQuery eraseIdentity
  simp only [List.find?_map]
  have h2 : ((fun adv : AppDownstreamVersionRow =>
        decide (adv.app_id = appID) && decide (adv.parent_sequence = sequence)) ∘
      fun r : AppDownstreamVersionRow => { r with identity := {} }) =
      fun adv => decide (adv.app_id = appID) && decide (adv.parent_sequence = sequence) := rfl
  rw [h2]
  cases s.app_downstream_version.find?
      (fun adv => decide (adv.app_id = appID) && decide (adv.parent_sequence = sequence)) with
  | none => rfl
  | some adv => rfl

theorem eraseIdentity_updates (s : Store) (sequence : Int) (appID : String) (now : Nat) :
    eraseIdentity (updateVersionStatus (updateCurrentSequence s sequence appID) sequence appID
        now) =
      updateVersionStatus (updateCurrentSequence (eraseIdentity s) sequence appID) sequence
        appID now := by
  simp only [eraseIdentity, updateVersionStatus, updateCurrentSequence, List.map_map]
  congr 1
  apply List.map_congr_left
  intro r _
  simp only [Function.comp]
  by_cases h0 : r.sequence = sequence ∧ r.app_id = appID
  · rw [if_pos h0, if_pos h0]
  · rw [if_neg h0, if_neg h0]


theorem preflightQuery_congr (a b : Store) (appID : String) (sequence : Int)
    (hab : eraseIdentity a = eraseIdentity b) :
    preflightQuery a appID sequence = preflightQuery b appID sequence := by
  rw [← preflightQuery_eraseIdentity a, ← preflightQuery_eraseIdentity b, hab]

theorem getStatus_congr {P R : Type} (env : Env P R) (n : Nat) (a b : Store) (appID : String)
    (sequence : Int) (hab : eraseIdentity a = eraseIdentity b) :
    getStatus env n a appID sequence = getStatus env n b appID sequence := by
  unfold getStatus
  rw [← statusQuery_eraseIdentity a, ← statusQuery_eraseIdentity b, hab]

/-- The poll reads the same statuses on stores that differ only in identity
columns. -/
theorem pollStatus_congr {P R : Type} (env : Env P R) (appID : String) (sequence : Int)
    (hint : ∀ n a b, eraseIdentity a = eraseIdentity b →
      eraseIdentity (env.interfere n a) = eraseIdentity (env.interfere n b))
    (fuel : Nat) :
    ∀ (n : Nat) (a b : Store), eraseIdentity a = eraseIdentity b →
      (pollStatus env appID sequence fuel n a = none ∧
        pollStatus env appID sequence fuel n b = none) ∨
      ∃ a1 b1 m ok,
        pollStatus env appID sequence fuel n a = some (a1, m, ok) ∧
        pollStatus env appID sequence fuel n b = some (b1, m, ok) ∧
        eraseIdentity a1 = eraseIdentity b1 := by
  induction fuel with
  | zero =>
    intro n a b _
    exact Or.inl ⟨rfl, rfl⟩
  | succ f ih =>
    intro n a b hab
    have h1 := hint n a b hab
    have hst := getStatus_congr env n (env.interfere n a) (env.interfere n b) appID sequence h1
    rw [pollStatus, pollStatus]
    rw [hst]
    cases getStatus env n (env.interfere n b) appID sequence with
    | none => exact Or.inr ⟨_, _, _, _, rfl, rfl, h1⟩
    | some st =>
      dsimp only
      by_cases hp : st ≠ VersionPendingPreflight
      · rw [if_pos hp, if_pos hp]
        exact Or.inr ⟨_, _, _, _, rfl, rfl, h1⟩
      · rw [if_neg hp, if_neg hp]
        exact ih (n + 1) _ _ h1

/-- The gate returns the same pair on stores that differ only in identity
columns, and leaves stores that differ only there. -/
theorem isBlockedDueToStricPreFlights_congr {P R : Type} (env : Env P R) (fuel : Nat)
    (a b : Store) (appID : String) (sequence : Int)
    (hint : ∀ n a b, eraseIdentity a = eraseIdentity b →
      eraseIdentity (env.interfere n a) = eraseIdentity (env.interfere n b))
    (hab : eraseIdentity a = eraseIdentity b) :
    (isBlockedDueToStricPreFlights env fuel a appID sequence = none ∧
      isBlockedDueToStricPreFlights env fuel b appID sequence = none) ∨
    ∃ a1 b1 res,
      isBlockedDueToStricPreFlights env fuel a appID sequence = some (a1, res) ∧
      isBlockedDueToStricPreFlights env fuel b appID sequence = some (b1, res) ∧
      eraseIdentity a1 = eraseIdentity b1 := by
  unfold isBlockedDueToStricPreFlights
  by_cases hscan : env.faults.scan 0 = true
  · rw [if_pos hscan, if_pos hscan]
    exact Or.inr ⟨_, _, _, rfl, rfl, hab⟩
  · rw [if_neg hscan, if_neg hscan, preflightQuery_congr a b appID sequence hab]
    cases preflightQuery b appID sequence with
    | none => exact Or.inr ⟨_, _, _, rfl, rfl, hab⟩
    | some row =>
      dsimp only
      cases hasStrictPreflights env row with
      | none => exact Or.inr ⟨_, _, _, rfl, rfl, hab⟩
      | some strict =>
        dsimp only
        by_cases hmp : mustPoll strict row = true
        · rw [if_pos hmp, if_pos hmp]
          rcases pollStatus_congr env appID sequence hint fuel 0 a b hab with
            ⟨ha, hb⟩ | ⟨a1, b1, m, ok, ha, hb, h1⟩
          · rw [ha, hb]
            exact Or.inl ⟨rfl, rfl⟩
          · rw [ha, hb]
            cases ok with
            | false => exact Or.inr ⟨_, _, _, rfl, rfl, h1⟩
            | true =>
              dsimp only
              have h2 := hint m a1 b1 h1
              by_cases hrescan : env.faults.scan 1 = true
              · rw [if_pos hrescan, if_pos hrescan]
                exact Or.inr ⟨_, _, _, rfl, rfl, h2⟩
              · rw [if_neg hrescan, if_neg hrescan,
                  preflightQuery_congr _ _ appID sequence h2]
                cases preflightQuery (env.interfere m b1) appID sequence with
                | none => exact Or.inr ⟨_, _, _, rfl, rfl, h2⟩
                | some latest => exact Or.inr ⟨_, _, _, rfl, rfl, h2⟩
        · rw [if_neg hmp, if_neg hmp]
          exact Or.inr ⟨_, _, _, rfl, rfl, hab⟩


/-- C24: `DeployVersion` does not read the identity of releases. On two stores
that differ only in the channel, cursor, version label, semver or required flag
of releases (and with other sessions not reading them either), it returns the
same error or nil, and leaves stores that again differ only in those columns,
with the same pointers. So a release that the evaluator reports as blocked by
required releases is deployed as long as the gate does not block. -/
theorem DeployVersion_ignores_identity {P R : Type} (env : Env P R) (fuel : Nat)
    (a b : Store) (appID : String) (sequence : Int)
    (hint : ∀ n a b, eraseIdentity a = eraseIdentity b →
      eraseIdentity (env.interfere n a) = eraseIdentity (env.interfere n b))
    (hab : eraseIdentity a = eraseIdentity b) :
    (DeployVersion env fuel a appID sequence = none ∧
      DeployVersion env fuel b appID sequence = none) ∨
    ∃ a2 b2 r,
      DeployVersion env fuel a appID sequence = some (a2, r) ∧
      DeployVersion env fuel b appID sequence = some (b2, r) ∧
      eraseIdentity a2 = eraseIdentity b2 ∧
      a2.app_downstream = b2.app_downstream := by
  have hptr : ∀ x y : Store, eraseIdentity x = eraseIdentity y →
      x.app_downstream = y.app_downstream := by
    intro x y hxy
    have := congrArg Store.app_downstream hxy
    simpa [eraseIdentity] using this
  unfold DeployVersion
  rcases isBlockedDueToStricPreFlights_congr env fuel a b appID sequence hint hab with
    ⟨ha, hb⟩ | ⟨a1, b1, res, ha, hb, h1⟩
  · rw [ha, hb]
    exact Or.inl ⟨rfl, rfl⟩
  · rw [ha, hb]
    right
    cases res with
    | error e => exact ⟨_, _, _, rfl, rfl, h1, hptr _ _ h1⟩
    | ok blocked =>
      cases blocked with
      | true => exact ⟨_, _, _, rfl, rfl, h1, hptr _ _ h1⟩
      | false =>
        dsimp only
        by_cases hb0 : env.faults.begin = true
        · rw [if_pos hb0, if_pos hb0]
          exact ⟨_, _, _, rfl, rfl, h1, hptr _ _ h1⟩
        · rw [if_neg hb0, if_neg hb0]
          by_cases hb1 : env.faults.execCurrentSequence = true
          · rw [if_pos hb1, if_pos hb1]
            exact ⟨_, _, _, rfl, rfl, h1, hptr _ _ h1⟩
          · rw [if_neg hb1, if_neg hb1]
            by_cases hb2 : env.faults.execVersionStatus = true
            · rw [if_pos hb2, if_pos hb2]
              exact ⟨_, _, _, rfl, rfl, h1, hptr _ _ h1⟩
            · rw [if_neg hb2, if_neg hb2]
              by_cases hb3 : env.faults.commit = true
              · rw [if_pos hb3, if_pos hb3]
                exact ⟨_, _, _, rfl, rfl, h1, hptr _ _ h1⟩
              · rw [if_neg hb3, if_neg hb3]
                have h2 : eraseIdentity
                    (updateVersionStatus (updateCurrentSequence a1 sequence appID) sequence
                      appID env.now) =
                    eraseIdentity
                      (updateVersionStatus (updateCurrentSequence b1 sequence appID) sequence
                        appID env.now) := by
                  rw [eraseIdentity_updates, eraseIdentity_updates, h1]
                exact ⟨_, _, _, rfl, rfl, h2, hptr _ _ h2⟩

/-- C24 (witness): the releases of the test row at lines 566-621 as a store.
The evaluator reports release 4 as blocked by the required releases 3.0 and
4.0, yet `DeployVersion("app", 4)` returns nil and moves the pointer from 1 to
4, exactly as on the store with every identity column blanked. -/
theorem DeployVersion_ignores_identity_witness :
    isAppVersionDeployable nonSemverRequiredGapTest.version
        nonSemverRequiredGapTest.appVersions false =
      some (false,
        "This version cannot be deployed because versions 3.0, 4.0 are required and must be deployed first.") ∧
    (DeployVersion quietEnv 0 requiredGapStore "app" 4).map
        (fun out => (out.1.app_downstream, out.2)) =
      some ([{ app_id := "app", cluster_id := "this-cluster", current_sequence := some 4 }],
        none) ∧
    ((DeployVersion quietEnv 0 requiredGapStore "app" 4 = none ∧
        DeployVersion quietEnv 0 (eraseIdentity requiredGapStore) "app" 4 = none) ∨
      ∃ a2 b2 r,
        DeployVersion quietEnv 0 requiredGapStore "app" 4 = some (a2, r) ∧
        DeployVersion quietEnv 0 (eraseIdentity requiredGapStore) "app" 4 = some (b2, r) ∧
        eraseIdentity a2 = eraseIdentity b2 ∧
        a2.app_downstream = b2.app_downstream) :=
  ⟨by decide, rfl,
    DeployVersion_ignores_identity quietEnv 0 requiredGapStore (eraseIdentity requiredGapStore)
      "app" 4 (fun _ _ _ h => h) (by decide)⟩


/-! ## Theorems: release metadata readers -/

/-- The URL loop keeps the last declared port whose `ApplicationURL` is the link
URL, and the link URL itself when there is none. -/
theorem rewriteURL_eq (ports : List ApplicationPort) (url : String) :
    rewriteURL ports url =
      match ports.reverse.find? (fun port => decide (port.ApplicationURL = url)) with
      | some port => "http://localhost:" ++ toString port.LocalPort
      | none => url := by
  induction ports using List.reverseRecOn with
  | nil => rfl
  | append_singleton init last ih =>
    unfold rewriteURL at ih ⊢
    rw [List.foldl_append, List.reverse_append]
    simp only [List.foldl_cons, List.foldl_nil, List.reverse_cons, List.reverse_nil,
      List.nil_append, List.singleton_append]
    by_cases hlast : last.ApplicationURL = url
    · rw [if_pos hlast, List.find?_cons_of_pos _ (by simpa using hlast)]
    · rw [if_neg hlast, List.find?_cons_of_neg _ (by simpa using hlast)]
      exact ih

/-- C27: when the row exists, its application spec is not empty and both specs
decode, `GetRealizedLinksFromAppSpec` returns one link per declared descriptor
link, in order, titled with the description, whose `Uri` is
"http://localhost:<LocalPort>" of the last declared port with that
`ApplicationURL`, or the link URL when no port has it; when the row is missing
or its application spec is `NULL` or empty, it returns the empty list and no
error. -/
theorem GetRealizedLinksFromAppSpec_spec (dec : Decoders) (s : Store) (appID : String)
    (sequence : Int) :
    (∀ appSpecStr kotsAppSpecStr links ports,
      appSpecQuery s appID sequence = some (appSpecStr, kotsAppSpecStr) →
      nullString appSpecStr ≠ "" →
      dec.decodeApplication (nullString appSpecStr) = some links →
      dec.decodeKotsApplication (nullString kotsAppSpecStr) = some ports →
      GetRealizedLinksFromAppSpec dec false s appID sequence =
        .ok (links.map fun link =>
          { Title := link.Description,
            Uri :=
              match ports.reverse.find? (fun port => decide (port.ApplicationURL = link.URL)) with
              | some port => "http://localhost:" ++ toString port.LocalPort
              | none => link.URL })) ∧
    (appSpecQuery s appID sequence = none →
      GetRealizedLinksFromAppSpec dec false s appID sequence = .ok []) ∧
    (∀ appSpecStr kotsAppSpecStr,
      appSpecQuery s appID sequence = some (appSpecStr, kotsAppSpecStr) →
      (appSpecStr = none ∨ appSpecStr = some "") →
      GetRealizedLinksFromAppSpec dec false s appID sequence = .ok []) := by
  refine ⟨?_, ?_, ?_⟩
  · intro appSpecStr kotsAppSpecStr links ports hq hne hdec1 hdec2
    unfold GetRealizedLinksFromAppSpec
    rw [if_neg (by simp), hq]
    dsimp only
    rw [if_neg hne, hdec1]
    dsimp only
    rw [hdec2]
    dsimp only
    congr 1
    apply List.map_congr_left
    intro link _
    rw [rewriteURL_eq]
  · intro hq
    unfold GetRealizedLinksFromAppSpec
    rw [if_neg (by simp), hq]
  · intro appSpecStr kotsAppSpecStr hq hempty
    unfold GetRealizedLinksFromAppSpec
    rw [if_neg (by simp), hq]
    dsimp only
    have he : nullString appSpecStr = "" := by
      rcases hempty with h | h <;> rw [h] <;> rfl
    rw [if_pos he]


/-- C27 (witness): two ports declare the URL of the first link, the later one
on local port 9999 wins; the second link matches no port and keeps its URL. -/
theorem GetRealizedLinksFromAppSpec_spec_witness :
    GetRealizedLinksFromAppSpec exampleDecoders false linksStore "app" 1 =
      .ok [{ Title := "Open App", Uri := "http://localhost:9999" },
           { Title := "Docs", Uri := "http://docs" }] ∧
    GetRealizedLinksFromAppSpec exampleDecoders false linksStore "app" 2 = .ok [] :=
  ⟨((GetRealizedLinksFromAppSpec_spec exampleDecoders linksStore "app" 1).1
      (some "app-yaml") (some "kots-yaml") _ examplePorts rfl (by decide) rfl rfl).trans
      (congrArg Except.ok (by decide)),
    (GetRealizedLinksFromAppSpec_spec exampleDecoders linksStore "app" 2).2.1 rfl⟩


theorem readyStatuses_foldl (statuses : List ContainerStatus) :
    ∀ ready : Bool,
      statuses.foldl (fun ready2 status => if status.Ready then true else ready2) ready = true ↔
        ready = true ∨ ∃ status ∈ statuses, status.Ready = true := by
  induction statuses with
  | nil => intro ready; simp
  | cons st rest ih =>
    intro ready
    rw [List.foldl_cons, ih]
    by_cases hst : st.Ready = true
    · simp [hst]
    · simp [hst]

theorem readyPods_foldl (pods : List Pod) :
    ∀ ready : Bool,
      pods.foldl
        (fun ready pod =>
          if pod.Phase = PodRunning then
            pod.ContainerStatuses.foldl
              (fun ready2 status => if status.Ready then true else ready2) ready
          else ready)
        ready = true ↔
        ready = true ∨
          ∃ pod ∈ pods, pod.Phase = PodRunning ∧
            ∃ status ∈ pod.ContainerStatuses, status.Ready = true := by
  induction pods with
  | nil => intro ready; simp
  | cons pod rest ih =>
    intro ready
    rw [List.foldl_cons, ih]
    by_cases hph : pod.Phase = PodRunning
    · rw [if_pos hph, readyStatuses_foldl]
      simp only [List.mem_cons, exists_eq_or_imp, hph, true_and]
      exact or_assoc
    · rw [if_neg hph]
      simp only [List.mem_cons, exists_eq_or_imp, hph, false_and, false_or]

/-- A listed pod counts when it is in the Running phase with a container status
that is ready. -/
theorem hasReadyPod_iff (pods : List Pod) :
    hasReadyPod pods = true ↔
      ∃ pod ∈ pods, pod.Phase = PodRunning ∧
        ∃ status ∈ pod.ContainerStatuses, status.Ready = true := by
  unfold hasReadyPod
  rw [readyPods_foldl]
  simp

/-- The loop over the declared ports appends, in order, the ports that pass. -/
theorem forwardedPorts_foldl (clientset : Cluster) (applicationPorts : List ApplicationPort) :
    ∀ acc : List ForwardedPort,
      applicationPorts.foldl
        (fun ports port =>
          if portIsForwarded clientset port then
            ports ++ [{ ServiceName := port.ServiceName, ServicePort := port.ServicePort,
                        LocalPort := port.LocalPort,
                        ApplicationURL := port.ApplicationURL }]
          else ports)
        acc =
      acc ++ (applicationPorts.filter (portIsForwarded clientset)).map fun port =>
        { ServiceName := port.ServiceName, ServicePort := port.ServicePort,
          LocalPort := port.LocalPort, ApplicationURL := port.ApplicationURL } := by
  induction applicationPorts with
  | nil => intro acc; simp
  | cons port rest ih =>
    intro acc
    rw [List.foldl_cons, ih]
    by_cases hp : portIsForwarded clientset port = true
    · rw [if_pos hp, List.filter_cons_of_pos hp, List.map_cons, List.append_assoc]
      rfl
    · rw [if_neg hp, List.filter_cons_of_neg hp]

/-- C26: with the application version read, its KOTS kinds present and the
clientset obtained, `GetForwardedPortsFromAppSpec` returns, with a nil error,
exactly the declared ports, in declared order and copied field by field, for
which the service lookup succeeds, the pod listing succeeds and a listed pod is
Running with a ready container status; a port that cannot be inspected is left
out and the call still succeeds. -/
theorem GetForwardedPortsFromAppSpec_spec (applicationPorts : List ApplicationPort)
    (clientset : Cluster) :
    GetForwardedPortsFromAppSpec (.ok { KOTSKinds := some applicationPorts }) (.ok clientset) =
      (some ((applicationPorts.filter (portIsForwarded clientset)).map fun port =>
          { ServiceName := port.ServiceName, ServicePort := port.ServicePort,
            LocalPort := port.LocalPort, ApplicationURL := port.ApplicationURL }),
        none) ∧
    ∀ port, portIsForwarded clientset port = true ↔
      ∃ selector pods,
        clientset.getService port.ServiceName = some selector ∧
        clientset.listPods selector = some pods ∧
        ∃ pod ∈ pods, pod.Phase = PodRunning ∧
          ∃ status ∈ pod.ContainerStatuses, status.Ready = true := by
  constructor
  · unfold GetForwardedPortsFromAppSpec
    dsimp only
    by_cases hlen : applicationPorts.length = 0
    · rw [if_pos hlen]
      have hnil : applicationPorts = [] := List.length_eq_zero.mp hlen
      subst hnil
      rfl
    · rw [if_neg hlen, forwardedPorts_foldl, List.nil_append]
  · intro port
    unfold portIsForwarded
    cases hsvc : clientset.getService port.ServiceName with
    | none => simp
    | some selector =>
      dsimp only
      cases hpods : clientset.listPods selector with
      | none => simp [hpods]
      | some pods =>
        dsimp only
        rw [hasReadyPod_iff]
        simp [hpods]

/-- C29 (code): with the application version read and its `KOTSKinds` nil, the
wrapped error is nil because the wrapped `err` is nil: the call returns a nil
port list and a nil error, whatever the clientset is. -/
theorem GetForwardedPortsFromAppSpec_nil_kinds (getClientset : Except GoError Cluster) :
    GetForwardedPortsFromAppSpec (.ok { KOTSKinds := none }) getClientset = (none, none) :=
  rfl

/-- C26 (witness): of the three declared ports, "web" has a running pod with a
ready container, "web-admin" has only a pending pod and the service "gone"
cannot be read; the call returns the port of "web" alone, with a nil error. -/
theorem GetForwardedPortsFromAppSpec_spec_witness :
    GetForwardedPortsFromAppSpec (.ok { KOTSKinds := some examplePorts }) (.ok exampleCluster) =
      (some [{ ServiceName := "web", ServicePort := 80, LocalPort := 8888,
               ApplicationURL := "http://my-app" }], none) :=
  (GetForwardedPortsFromAppSpec_spec examplePorts exampleCluster).1.trans (by decide)


/-! ## Theorems: the postgres service and its stateful set -/

/-- C30: whenever `postgresStatefulset` builds a stateful set, the service built
by `postgresService` for the same namespace routes to its pods: both are named
kotsadm-postgres in that namespace; the service selector is the selector of
the stateful set and the labels of its pod template; the service port 5432
targets the port named "postgres", which the container declares as container
port 5432; and the pod volume, its claim, the volume mount of the container and
the volume claim template are all named kotsadm-postgres. Without a limit
range the stateful set is always built. -/
theorem postgresService_routes_to_statefulset
    (promptForSizeIfNotBetween :
      String → Quantity → Option Quantity → Option Quantity → Option Quantity)
    (deployOptions : DeployOptions) :
    (∀ statefulset,
      postgresStatefulset promptForSizeIfNotBetween deployOptions = some statefulset →
      (postgresService deployOptions.Namespace).ObjectMeta.Name = "kotsadm-postgres" ∧
      statefulset.ObjectMeta.Name = "kotsadm-postgres" ∧
      (postgresService deployOptions.Namespace).ObjectMeta.Namespace = deployOptions.Namespace ∧
      statefulset.ObjectMeta.Namespace = deployOptions.Namespace ∧
      (postgresService deployOptions.Namespace).Selector = statefulset.MatchLabels ∧
      (postgresService deployOptions.Namespace).Selector =
        statefulset.Template.ObjectMeta.Labels ∧
      (postgresService deployOptions.Namespace).Ports =
        [{ Name := "postgres", Port := 5432, TargetPort := .str "postgres" }] ∧
      statefulset.Template.Containers.map (·.Ports) =
        [[{ Name := "postgres", ContainerPort := 5432 }]] ∧
      statefulset.Template.Volumes =
        [{ Name := "kotsadm-postgres", ClaimName := "kotsadm-postgres" }] ∧
      statefulset.Template.Containers.map (fun c => c.VolumeMounts.map (·.Name)) =
        [["kotsadm-postgres"]] ∧
      statefulset.VolumeClaimTemplates.map (·.ObjectMeta.Name) = ["kotsadm-postgres"]) ∧
    (deployOptions.LimitRange = none →
      ∃ statefulset,
        postgresStatefulset promptForSizeIfNotBetween deployOptions = some statefulset) := by
  constructor
  · intro statefulset h
    unfold postgresStatefulset at h
    dsimp only at h
    split at h
    · exact absurd h (by simp)
    · simp only [Option.some.injEq] at h
      subst h
      exact ⟨rfl, rfl, rfl, rfl, rfl, rfl, rfl, rfl, rfl, rfl, rfl⟩
  · intro hnone
    unfold postgresStatefulset
    rw [hnone]
    exact ⟨_, rfl⟩

/-- C30 (witness): in the namespace "default", with no limit range, the stateful
set is built, and its selector and its namespace are those of the service. -/
theorem postgresService_routes_to_statefulset_witness :
    (postgresStatefulset (fun _ _ _ _ => none) { Namespace := "default" }).map
        (fun statefulset => (statefulset.MatchLabels, statefulset.ObjectMeta.Namespace)) =
      some ((postgresService "default").Selector,
        (postgresService "default").ObjectMeta.Namespace) := by
  have w := postgresService_routes_to_statefulset (fun _ _ _ _ => none)
    { Namespace := "default" }
  obtain ⟨statefulset, hbuilt⟩ := w.2 rfl
  have hprops := w.1 statefulset hbuilt
  rw [hbuilt, Option.map_some', ← hprops.2.2.2.2.1, hprops.2.2.2.1]
  rfl

end Kots
